import Mathlib

/-!
Shallow embedding of the COI (Certificate of Insurance) rule-evaluation engine of the
insurance-llm backend, covering:

* `parse_limit_to_number`   (src/backend/services/llm.py and src/backend/services/mock/coi.py,
  identical copies),
* `mock_compliance_check` and its static state tables
  (src/backend/services/mock/coi.py, tables from src/backend/main.py, the same tables the
  `data.states` / `data.project_types` modules export),
* `calculate_extraction_confidence`  (src/backend/services/llm.py),
* the requirements-resolution step of the `check_coi_compliance` route
  (src/backend/routers/analyzers.py).

Modelling conventions:

* Python dictionaries with a fixed key set become structures; a key that may be absent or
  hold `None` becomes an `Option` field, and `dict.get(k, default)` becomes `Option.getD`.
* Python `float` values are modelled exactly: parsed currency floats as decimal
  mantissa/power-of-ten pairs with truncating division, confidence scores as rationals
  (`ℚ`).  All float literals involved (0.3, 0.7, 0.75, 0.8, 1.0, and currency values) are
  exact decimal constants and the operations performed are sums of at most six terms, one
  division, one multiplication and comparisons, so the exact model agrees with IEEE-double
  evaluation on everything stated here (an input such as `"0.29K"`, where binary rounding
  of the product differs from the exact value, would diverge; no stated property involves
  such inputs).  `float(s)` string parsing is modelled for the sign/digits/decimal-point
  forms (Python additionally accepts exponent notation, `inf`/`nan` and `_` digit
  separators; none of those shapes are exercised by any property below).
* `str.replace(c, '')` for a single-character pattern is modelled as a character filter,
  `str.strip()` as dropping leading/trailing whitespace, `str.upper()` as per-character
  upper-casing.
* Python `int(x)` on a float truncates toward zero; `round(x, 2)` rounds half-to-even.
-/

namespace InsuranceLLM

/-- Digits of a numeral, most significant first, read as a natural number. -/
def digitsToNat (cs : List Char) : Nat :=
  cs.foldl (fun a c => a * 10 + (c.toNat - 48)) 0

/-- Python `float(s)` on an unsigned magnitude: digits with an optional single decimal
point (`"12"`, `"12."`, `".5"`, `"1.25"`); anything else fails.  The float value is kept
as an exact decimal: a mantissa and the power-of-ten exponent of its denominator. -/
def pyFloatMag (cs : List Char) : Option (Nat × Nat) :=
  let intPart := cs.takeWhile Char.isDigit
  let rest := cs.dropWhile Char.isDigit
  match rest with
  | [] => if intPart.isEmpty then none else some (digitsToNat intPart, 0)
  | '.' :: frac =>
      if frac.all Char.isDigit && !(intPart.isEmpty && frac.isEmpty) then
        some (digitsToNat (intPart ++ frac), frac.length)
      else none
  | _ => none

/-- Python `float(s)`: optional sign then a magnitude; the value is `±mantissa / 10^exp`. -/
def pyFloatChars (cs : List Char) : Option (Int × Nat) :=
  match cs with
  | '-' :: r => (pyFloatMag r).map (fun f => (-(f.1 : Int), f.2))
  | '+' :: r => (pyFloatMag r).map (fun f => ((f.1 : Int), f.2))
  | _ => (pyFloatMag cs).map (fun f => ((f.1 : Int), f.2))

/-- Python `int(s)`: optional sign then one or more digits. -/
def pyIntChars (cs : List Char) : Option Int :=
  match cs with
  | '-' :: r => if !r.isEmpty && r.all Char.isDigit then some (-(digitsToNat r : Int)) else none
  | '+' :: r => if !r.isEmpty && r.all Char.isDigit then some (digitsToNat r : Int) else none
  | _ => if !cs.isEmpty && cs.all Char.isDigit then some (digitsToNat cs : Int) else none

/-- Python `int(f * mult)` for the exact decimal float `f = m / 10^e`: multiply exactly,
then truncate toward zero (`Int.tdiv` is Python-style truncating division). -/
def intOfFloatMul (f : Int × Nat) (mult : Nat) : Int :=
  Int.tdiv (f.1 * (mult : Int)) ((10 : Int) ^ f.2)

/-- Python `round(x)`: round half to even, to an integer. -/
def pyRoundHalfEven (x : ℚ) : Int :=
  let n := ⌊x⌋
  let f := x - (n : ℚ)
  if f < 1/2 then n
  else if (1:ℚ)/2 < f then n + 1
  else if n % 2 = 0 then n else n + 1

/-- Python `round(x, 2)`. -/
def round2 (q : ℚ) : ℚ :=
  (pyRoundHalfEven (q * 100) : ℚ) / 100

/-- Python f-string `{n:,}` formatting of a natural number: thousands separators. -/
def commaNat (n : Nat) : String :=
  let rev := (toString n).data.reverse
  let k := (rev.length + 2) / 3
  let chunks := (List.range k).map (fun i => ((rev.drop (3*i)).take 3).reverse)
  String.intercalate "," (chunks.reverse.map (fun c => String.mk c))

/-- Python f-string `{n:,}` formatting of an integer. -/
def commaInt (n : Int) : String :=
  if n < 0 then "-" ++ commaNat n.natAbs else commaNat n.natAbs

/-- `s.replace('$', '').replace(',', '').strip().upper()`, at the character-list level
(single-character `replace` with an empty replacement is a filter). -/
def cleanLimitChars (s : String) : List Char :=
  ((((s.data.filter (fun c => !(c = '$' || c = ','))).dropWhile
      Char.isWhitespace).reverse.dropWhile Char.isWhitespace).reverse).map Char.toUpper

/-- `parse_limit_to_number` (src/backend/services/llm.py:38-58, identical copy in
src/backend/services/mock/coi.py:11-31): parse a limit string like `"$1,000,000"` or
`"$1M"` to an integer; `'M'`/`'K'` anywhere in the cleaned string trigger the million /
thousand branch (all occurrences removed, remainder parsed as a float); a bare `except`
turns every parse failure into 0. -/
def parse_limit_to_number (limit_str : String) : Int :=
  if limit_str = "" then 0
  else
    let cleaned := cleanLimitChars limit_str
    if cleaned.contains 'M' then
      match pyFloatChars (cleaned.filter (fun c => c ≠ 'M')) with
      | some f => intOfFloatMul f 1000000
      | none => 0
    else if cleaned.contains 'K' then
      match pyFloatChars (cleaned.filter (fun c => c ≠ 'K')) with
      | some f => intOfFloatMul f 1000
      | none => 0
    else
      match pyIntChars cleaned with
      | some n => n
      | none => 0

/-- One per-field confidence entry (the values of the nested `confidence` mapping;
`level` / `reason` keys may be absent). -/
structure ConfAnn where
  level : Option String
  reason : Option String
deriving DecidableEq, Repr

/-- The `confidence` mapping restricted to the six critical fields read by
`calculate_extraction_confidence`; `none` means the key is absent (Python then sees `{}`). -/
structure ConfidenceData where
  gl_limit_per_occurrence : Option ConfAnn := none
  gl_limit_aggregate : Option ConfAnn := none
  additional_insured_checked : Option ConfAnn := none
  waiver_of_subrogation_checked : Option ConfAnn := none
  cg_20_10_endorsement : Option ConfAnn := none
  cg_20_37_endorsement : Option ConfAnn := none
deriving DecidableEq, Repr

/-- The extracted COI fact set (the `COIData` schema of src/backend/schemas/common.py,
restricted to the fields the compliance check and the confidence gate read). -/
structure CoiData where
  insured_name : Option String := none
  gl_limit_per_occurrence : Option String := none
  gl_limit_aggregate : Option String := none
  workers_comp : Bool := false
  umbrella_limit : Option String := none
  additional_insured_checked : Bool := false
  waiver_of_subrogation_checked : Bool := false
  cg_20_10_endorsement : Bool := false
  cg_20_37_endorsement : Bool := false
  confidence : ConfidenceData := {}
deriving DecidableEq, Repr

/-- A requirements profile (an entry of `PROJECT_TYPE_REQUIREMENTS` or a caller-supplied
custom dict); every key may be absent, read defaults are applied with `Option.getD` at the
use sites exactly as `requirements.get(key, default)` does. -/
structure Requirements where
  name : Option String := none
  gl_per_occurrence : Option Int := none
  gl_aggregate : Option Int := none
  umbrella_required : Option Bool := none
  umbrella_minimum : Option Int := none
  workers_comp_required : Option Bool := none
  auto_liability_required : Option Bool := none
  additional_insured_required : Option Bool := none
  waiver_of_subrogation_required : Option Bool := none
  primary_noncontributory_required : Option Bool := none
  cg_20_10_required : Option Bool := none
  cg_20_37_required : Option Bool := none
deriving DecidableEq, Repr

/-- One finding dict appended to `critical_gaps` / `warnings` / `passed`
(the `ComplianceRequirement` schema).  `actual_value` is an `Option` because one site
(the state GL minimum warning) passes the raw, possibly-`None`, extracted value through. -/
structure Finding where
  name : String
  required_value : String
  actual_value : Option String
  status : String
  explanation : String
deriving DecidableEq, Repr

/-- The `extraction_metadata` dict (the `ExtractionMetadata` schema). -/
structure ExtractionMetadata where
  overall_confidence : ℚ
  needs_human_review : Bool
  review_reasons : List String
  low_confidence_fields : List String
  extraction_notes : String
deriving DecidableEq, Repr

/-- Result of `mock_compliance_check`.  The `coi_data` echo of the input and the
`fix_request_letter` (a deterministic template assembled from `critical_gaps`,
`warnings`, the requirements and the insured name, fields all present here) are omitted;
no stated property mentions them. -/
structure ComplianceResult where
  overall_status : String
  critical_gaps : List Finding
  warnings : List Finding
  passed : List Finding
  risk_exposure : String
  extraction_metadata : ExtractionMetadata
deriving DecidableEq, Repr

/-- Python `x or default` for an optional string (`None` and `""` are falsy). -/
def pyOr (o : Option String) (default : String) : String :=
  match o with
  | some s => if s = "" then default else s
  | none => default


/-- One entry of `STATE_WORKERS_COMP` (src/backend/main.py:624-677). -/
structure WCRule where
  required : Bool
  threshold : Option Nat
  construction_specific : String
  monopolistic : Bool
deriving DecidableEq, Repr

/-- One entry of `STATE_ANTI_INDEMNITY` (src/backend/main.py:681-734). -/
structure AIRule where
  type : String
  voids_ai_for_sole_negligence : Bool
  insurance_savings_clause : Bool
  notes : String
deriving DecidableEq, Repr

/-- One entry of `STATE_GL_REQUIREMENTS` (src/backend/main.py:737-790). -/
structure GLRule where
  required_for_license : Bool
  minimum_per_occurrence : Option Int
  notes : String
deriving DecidableEq, Repr

def STATE_WORKERS_COMP : List (String × WCRule) := [
  ("AL", ⟨true, some 5, "5+ employees", false⟩),
  ("AK", ⟨true, some 1, "All employees", false⟩),
  ("AZ", ⟨true, some 1, "All employees", false⟩),
  ("AR", ⟨true, some 3, "3+ in construction (stricter)", false⟩),
  ("CA", ⟨true, some 1, "All employees", false⟩),
  ("CO", ⟨true, some 1, "All employees", false⟩),
  ("CT", ⟨true, some 1, "All employees", false⟩),
  ("DE", ⟨true, some 1, "All employees", false⟩),
  ("FL", ⟨true, some 1, "1+ in construction (stricter than 4 general)", false⟩),
  ("GA", ⟨true, some 3, "3+ employees", false⟩),
  ("HI", ⟨true, some 1, "All employees", false⟩),
  ("ID", ⟨true, some 1, "All employees", false⟩),
  ("IL", ⟨true, some 1, "All employees", false⟩),
  ("IN", ⟨true, some 1, "All employees", false⟩),
  ("IA", ⟨true, some 1, "All employees", false⟩),
  ("KS", ⟨true, some 1, "All employees", false⟩),
  ("KY", ⟨true, some 1, "All employees", false⟩),
  ("LA", ⟨true, some 1, "All employees", false⟩),
  ("ME", ⟨true, some 1, "All employees", false⟩),
  ("MD", ⟨true, some 1, "All employees", false⟩),
  ("MA", ⟨true, some 1, "All employees", false⟩),
  ("MI", ⟨true, some 1, "All employees", false⟩),
  ("MN", ⟨true, some 1, "All employees", false⟩),
  ("MS", ⟨true, some 5, "5+ employees", false⟩),
  ("MO", ⟨true, some 1, "1+ in construction (stricter than 5 general)", false⟩),
  ("MT", ⟨true, some 1, "All employees", false⟩),
  ("NE", ⟨true, some 1, "All employees", false⟩),
  ("NV", ⟨true, some 1, "All employees", false⟩),
  ("NH", ⟨true, some 1, "All employees", false⟩),
  ("NJ", ⟨true, some 1, "All employees", false⟩),
  ("NM", ⟨true, some 1, "1+ in construction (stricter than 3 general)", false⟩),
  ("NY", ⟨true, some 1, "All employees", false⟩),
  ("NC", ⟨true, some 3, "3+ employees", false⟩),
  ("ND", ⟨true, some 1, "All employees", true⟩),
  ("OH", ⟨true, some 1, "All employees", true⟩),
  ("OK", ⟨true, some 1, "All employees", false⟩),
  ("OR", ⟨true, some 1, "All employees", false⟩),
  ("PA", ⟨true, some 1, "All employees", false⟩),
  ("RI", ⟨true, some 1, "All employees", false⟩),
  ("SC", ⟨true, some 4, "4+ employees", false⟩),
  ("SD", ⟨true, some 1, "All employees", false⟩),
  ("TN", ⟨true, some 1, "1+ in construction (stricter than 5 general)", false⟩),
  ("TX", ⟨false, none, "NOT REQUIRED - only fully voluntary state", false⟩),
  ("UT", ⟨true, some 1, "All employees", false⟩),
  ("VT", ⟨true, some 1, "All employees", false⟩),
  ("VA", ⟨true, some 3, "3+ employees", false⟩),
  ("WA", ⟨true, some 1, "All employees", true⟩),
  ("WV", ⟨true, some 1, "All employees", false⟩),
  ("WI", ⟨true, some 3, "3+ employees", false⟩),
  ("WY", ⟨true, some 1, "All employees", true⟩),
  ("DC", ⟨true, some 1, "All employees", false⟩)
]

def STATE_ANTI_INDEMNITY : List (String × AIRule) := [
  ("AL", ⟨"Partial", false, true, "Voids indemnity for indemnitee's sole negligence; insurance savings clause preserves AI"⟩),
  ("AK", ⟨"Partial", false, true, "Construction-specific; insurance savings clause preserves AI"⟩),
  ("AZ", ⟨"Broad", true, false, "CAUTION: Voids AI for indemnitee's negligence - insurance does NOT save it"⟩),
  ("AR", ⟨"Partial", false, true, "Voids for sole/partial negligence but insurance savings clause applies"⟩),
  ("CA", ⟨"Intermediate", false, true, "Type I construction - voids sole negligence; insurance savings clause preserves AI"⟩),
  ("CO", ⟨"Broad", true, false, "CAUTION: Very broad - voids indemnity AND insurance for any indemnitee negligence"⟩),
  ("CT", ⟨"Partial", false, true, "Limited to sole negligence; insurance provisions preserved"⟩),
  ("DE", ⟨"Partial", false, true, "Construction-specific; insurance savings clause applies"⟩),
  ("FL", ⟨"Intermediate", false, true, "Limits indemnity to proportionate fault; insurance requirements allowed"⟩),
  ("GA", ⟨"Broad", true, false, "CAUTION: Voids AI provisions for any indemnitee negligence"⟩),
  ("HI", ⟨"Partial", false, true, "Sole negligence void; insurance provisions preserved"⟩),
  ("ID", ⟨"Partial", false, true, "Construction-specific; insurance savings clause applies"⟩),
  ("IL", ⟨"Intermediate", false, true, "Void for sole/concurrent negligence; insurance savings clause preserves AI"⟩),
  ("IN", ⟨"Partial", false, true, "Limited construction anti-indemnity; insurance savings clause"⟩),
  ("IA", ⟨"None", false, true, "No anti-indemnity statute - full contractual freedom"⟩),
  ("KS", ⟨"Broad", true, false, "CAUTION: Broad statute voids AI for indemnitee negligence"⟩),
  ("KY", ⟨"None", false, true, "No anti-indemnity statute - full contractual freedom"⟩),
  ("LA", ⟨"Partial", false, true, "Sole negligence void; insurance provisions preserved"⟩),
  ("ME", ⟨"None", false, true, "No anti-indemnity statute - full contractual freedom"⟩),
  ("MD", ⟨"Intermediate", false, true, "Void for sole/concurrent; insurance savings clause applies"⟩),
  ("MA", ⟨"Partial", false, true, "Construction-specific; insurance savings clause"⟩),
  ("MI", ⟨"Partial", false, true, "Sole negligence void; insurance provisions preserved"⟩),
  ("MN", ⟨"Partial", false, true, "Construction contracts; insurance requirements allowed"⟩),
  ("MS", ⟨"Partial", false, true, "Sole negligence void; insurance savings clause"⟩),
  ("MO", ⟨"Partial", false, true, "Construction-specific; insurance provisions preserved"⟩),
  ("MT", ⟨"Broad", true, false, "MOST RESTRICTIVE: Voids AI for ANY negligence of indemnitee - no insurance savings"⟩),
  ("NE", ⟨"Partial", false, true, "Sole negligence void; insurance savings clause"⟩),
  ("NV", ⟨"Partial", false, true, "Construction-specific; insurance provisions preserved"⟩),
  ("NH", ⟨"None", false, true, "No anti-indemnity statute - full contractual freedom"⟩),
  ("NJ", ⟨"Partial", false, true, "Sole negligence void; insurance savings clause applies"⟩),
  ("NM", ⟨"Intermediate", false, true, "Void for sole/concurrent; insurance savings clause"⟩),
  ("NY", ⟨"Intermediate", false, true, "GOL 5-322.1 - void for negligence; insurance savings clause preserves AI"⟩),
  ("NC", ⟨"Partial", false, true, "Construction-specific; insurance provisions preserved"⟩),
  ("ND", ⟨"None", false, true, "No anti-indemnity statute - full contractual freedom"⟩),
  ("OH", ⟨"Partial", false, true, "Sole negligence void; insurance savings clause"⟩),
  ("OK", ⟨"Partial", false, true, "Construction-specific; insurance provisions preserved"⟩),
  ("OR", ⟨"Broad", true, false, "CAUTION: Broad statute - voids AI for indemnitee negligence"⟩),
  ("PA", ⟨"Partial", false, true, "Sole negligence void; insurance savings clause applies"⟩),
  ("RI", ⟨"Partial", false, true, "Construction-specific; insurance provisions preserved"⟩),
  ("SC", ⟨"Intermediate", false, true, "Void for sole/concurrent; insurance savings clause"⟩),
  ("SD", ⟨"None", false, true, "No anti-indemnity statute - full contractual freedom"⟩),
  ("TN", ⟨"Intermediate", false, true, "Void for sole/concurrent; insurance savings clause preserves AI"⟩),
  ("TX", ⟨"Intermediate", false, true, "Chapter 151 - void for negligence; explicit insurance savings clause"⟩),
  ("UT", ⟨"Partial", false, true, "Sole negligence void; insurance provisions preserved"⟩),
  ("VT", ⟨"None", false, true, "No anti-indemnity statute - full contractual freedom"⟩),
  ("VA", ⟨"Intermediate", false, true, "Void for sole/concurrent; insurance savings clause"⟩),
  ("WA", ⟨"Intermediate", false, true, "Void for negligence; insurance savings clause applies"⟩),
  ("WV", ⟨"None", false, true, "No anti-indemnity statute - full contractual freedom"⟩),
  ("WI", ⟨"Partial", false, true, "Construction-specific; insurance provisions preserved"⟩),
  ("WY", ⟨"None", false, true, "No anti-indemnity statute - full contractual freedom"⟩),
  ("DC", ⟨"Partial", false, true, "Construction-specific; insurance savings clause"⟩)
]

def STATE_GL_REQUIREMENTS : List (String × GLRule) := [
  ("AL", ⟨true, some 100000, "Required for licensing"⟩),
  ("AK", ⟨true, none, "Required for residential contractors"⟩),
  ("AZ", ⟨true, none, "Required - amount varies by license class"⟩),
  ("AR", ⟨false, none, "Not state mandated"⟩),
  ("CA", ⟨false, none, "Not required but must disclose if uninsured"⟩),
  ("CO", ⟨false, none, "Not state mandated"⟩),
  ("CT", ⟨false, none, "Not state mandated"⟩),
  ("DE", ⟨false, none, "Not state mandated"⟩),
  ("FL", ⟨true, some 300000, "Required for construction licensing - $300K min"⟩),
  ("GA", ⟨true, none, "Required for residential contractors"⟩),
  ("HI", ⟨true, none, "Required for licensing"⟩),
  ("ID", ⟨false, none, "Not state mandated"⟩),
  ("IL", ⟨false, none, "Not state mandated"⟩),
  ("IN", ⟨false, none, "Not state mandated"⟩),
  ("IA", ⟨false, none, "Not state mandated"⟩),
  ("KS", ⟨false, none, "Not state mandated"⟩),
  ("KY", ⟨false, none, "Not state mandated"⟩),
  ("LA", ⟨true, some 100000, "Required for licensing"⟩),
  ("ME", ⟨false, none, "Not state mandated"⟩),
  ("MD", ⟨true, some 100000, "Required for home improvement"⟩),
  ("MA", ⟨false, none, "Not state mandated"⟩),
  ("MI", ⟨true, none, "Required for residential builders"⟩),
  ("MN", ⟨true, none, "Required for residential contractors"⟩),
  ("MS", ⟨true, none, "Required for licensing"⟩),
  ("MO", ⟨false, none, "Not state mandated"⟩),
  ("MT", ⟨false, none, "Not state mandated"⟩),
  ("NE", ⟨false, none, "Not state mandated"⟩),
  ("NV", ⟨true, none, "Required for licensing"⟩),
  ("NH", ⟨false, none, "Not state mandated"⟩),
  ("NJ", ⟨false, none, "Not state mandated but common for home improvement"⟩),
  ("NM", ⟨true, none, "Required for licensing"⟩),
  ("NY", ⟨false, none, "Not state mandated (local requirements vary)"⟩),
  ("NC", ⟨true, none, "Required for general contractors"⟩),
  ("ND", ⟨false, none, "Not state mandated"⟩),
  ("OH", ⟨false, none, "Not state mandated"⟩),
  ("OK", ⟨false, none, "Not state mandated"⟩),
  ("OR", ⟨true, none, "Required for CCB license"⟩),
  ("PA", ⟨false, none, "Not state mandated"⟩),
  ("RI", ⟨false, none, "Not state mandated"⟩),
  ("SC", ⟨true, none, "Required for licensing"⟩),
  ("SD", ⟨false, none, "Not state mandated"⟩),
  ("TN", ⟨true, none, "Required for licensing"⟩),
  ("TX", ⟨false, none, "Not state mandated (no state licensing)"⟩),
  ("UT", ⟨true, none, "Required for licensing"⟩),
  ("VT", ⟨false, none, "Not state mandated"⟩),
  ("VA", ⟨true, none, "Required for Class A contractors"⟩),
  ("WA", ⟨true, none, "Required for registration"⟩),
  ("WV", ⟨false, none, "Not state mandated"⟩),
  ("WI", ⟨false, none, "Not state mandated"⟩),
  ("WY", ⟨false, none, "Not state mandated"⟩),
  ("DC", ⟨false, none, "Not DC mandated"⟩)
]

def req_commercial_construction : Requirements := {
  name := some "Commercial Construction"
  gl_per_occurrence := some 1000000
  gl_aggregate := some 2000000
  umbrella_minimum := some 2000000
  umbrella_required := some true
  workers_comp_required := some true
  auto_liability_required := some true
  additional_insured_required := some true
  waiver_of_subrogation_required := some true
  primary_noncontributory_required := some true
  cg_20_10_required := some true
  cg_20_37_required := some true
}

def req_residential_construction : Requirements := {
  name := some "Residential Construction"
  gl_per_occurrence := some 500000
  gl_aggregate := some 1000000
  umbrella_minimum := some 0
  umbrella_required := some false
  workers_comp_required := some true
  auto_liability_required := some true
  additional_insured_required := some true
  waiver_of_subrogation_required := some false
  primary_noncontributory_required := some false
  cg_20_10_required := some false
  cg_20_37_required := some false
}

def req_government_municipal : Requirements := {
  name := some "Government/Municipal"
  gl_per_occurrence := some 2000000
  gl_aggregate := some 4000000
  umbrella_minimum := some 5000000
  umbrella_required := some true
  workers_comp_required := some true
  auto_liability_required := some true
  additional_insured_required := some true
  waiver_of_subrogation_required := some true
  primary_noncontributory_required := some true
  cg_20_10_required := some true
  cg_20_37_required := some true
}

def req_industrial_manufacturing : Requirements := {
  name := some "Industrial/Manufacturing"
  gl_per_occurrence := some 2000000
  gl_aggregate := some 4000000
  umbrella_minimum := some 5000000
  umbrella_required := some true
  workers_comp_required := some true
  auto_liability_required := some true
  additional_insured_required := some true
  waiver_of_subrogation_required := some true
  primary_noncontributory_required := some true
  cg_20_10_required := some true
  cg_20_37_required := some true
}

def PROJECT_TYPE_REQUIREMENTS : List (String × Requirements) := [
  ("commercial_construction", req_commercial_construction),
  ("residential_construction", req_residential_construction),
  ("government_municipal", req_government_municipal),
  ("industrial_manufacturing", req_industrial_manufacturing)
]

/-- `STATE_MITIGATIONS` local table of `mock_compliance_check`
(src/backend/services/mock/coi.py:243-250). -/
def STATE_MITIGATIONS : List (String × String) := [
  ("AZ", "Consider CG 24 26 endorsement or higher primary limits on your own CGL."),
  ("CO", "Wrap-up/OCIP recommended for larger projects. Ensure contractual liability coverage on your policy."),
  ("GA", "Primary & non-contributory language remains valid. Verify your own CGL limits are adequate."),
  ("KS", "Wrap-up programs or higher umbrella limits on your own policy recommended."),
  ("MT", "OCIP/CCIP wrap-up insurance or project-specific coverage. Your own policy should be primary."),
  ("OR", "CG 24 26 amendment endorsement or contractual liability on your CGL.")
]

/-- GL per-occurrence check (src/backend/services/mock/coi.py:113-132).  Each rule
function returns its contribution to (`critical_gaps`, `warnings`, `passed`). -/
def glPerOccRule (coi : CoiData) (req : Requirements) :
    List Finding × List Finding × List Finding :=
  let coi_limit := parse_limit_to_number (coi.gl_limit_per_occurrence.getD "")
  let req_limit := req.gl_per_occurrence.getD 1000000
  let gl_per_occ_value := pyOr coi.gl_limit_per_occurrence "Not specified"
  if coi_limit ≥ req_limit then
    ([], [], [{ name := "GL Per Occurrence Limit",
                required_value := "$" ++ commaInt req_limit,
                actual_value := some gl_per_occ_value,
                status := "pass",
                explanation := "Limit meets or exceeds requirement" }])
  else
    ([{ name := "GL Per Occurrence Limit",
        required_value := "$" ++ commaInt req_limit,
        actual_value := some gl_per_occ_value,
        status := "fail",
        explanation := "INADEQUATE COVERAGE: Limit is $" ++ commaInt coi_limit ++
          " but contract requires $" ++ commaInt req_limit ++ ". This leaves a $" ++
          commaInt (req_limit - coi_limit) ++ " gap in coverage." }], [], [])

/-- GL aggregate check (coi.py:134-153). -/
def glAggRule (coi : CoiData) (req : Requirements) :
    List Finding × List Finding × List Finding :=
  let coi_agg := parse_limit_to_number (coi.gl_limit_aggregate.getD "")
  let req_agg := req.gl_aggregate.getD 2000000
  let gl_agg_value := pyOr coi.gl_limit_aggregate "Not specified"
  if coi_agg ≥ req_agg then
    ([], [], [{ name := "GL Aggregate Limit",
                required_value := "$" ++ commaInt req_agg,
                actual_value := some gl_agg_value,
                status := "pass",
                explanation := "Aggregate limit meets or exceeds requirement" }])
  else
    ([{ name := "GL Aggregate Limit",
        required_value := "$" ++ commaInt req_agg,
        actual_value := some gl_agg_value,
        status := "fail",
        explanation := "INADEQUATE COVERAGE: Aggregate is $" ++ commaInt coi_agg ++
          " but contract requires $" ++ commaInt req_agg ++ "." }], [], [])

/-- Additional-Insured compound check (coi.py:155-181): applicability flag, then
checkbox AND (CG 20 10 OR CG 20 37). -/
def aiRule (coi : CoiData) (req : Requirements) :
    List Finding × List Finding × List Finding :=
  if req.additional_insured_required.getD true then
    if coi.additional_insured_checked then
      if coi.cg_20_10_endorsement || coi.cg_20_37_endorsement then
        ([], [], [{ name := "Additional Insured Status",
                    required_value := "Additional Insured box checked with proper endorsement",
                    actual_value := some "Box checked with endorsement referenced",
                    status := "pass",
                    explanation := "Additional insured status properly documented" }])
      else
        ([], [{ name := "Additional Insured Endorsement",
                required_value := "CG 20 10 / CG 20 37 endorsement referenced",
                actual_value := some "Box checked but no endorsement number listed",
                status := "warning",
                explanation := "Additional Insured box is checked but no specific endorsement (CG 20 10, CG 20 37) is referenced. Request confirmation of actual endorsement." }], [])
    else
      ([{ name := "Additional Insured Status",
          required_value := "Must be named as Additional Insured",
          actual_value := some "Additional Insured box NOT checked",
          status := "fail",
          explanation := "CRITICAL: Being listed as Certificate Holder does NOT make you an Additional Insured. The California scaffolding case (Pardee v. Pacific) resulted in $3.5M+ in damages when this distinction was ignored. Request endorsement CG 20 10 for ongoing operations." }], [], [])
  else ([], [], [])

/-- Waiver-of-subrogation check (coi.py:183-200). -/
def wosRule (coi : CoiData) (req : Requirements) :
    List Finding × List Finding × List Finding :=
  if req.waiver_of_subrogation_required.getD true then
    if coi.waiver_of_subrogation_checked then
      ([], [], [{ name := "Waiver of Subrogation",
                  required_value := "Waiver of Subrogation required",
                  actual_value := some "Waiver of Subrogation checked",
                  status := "pass",
                  explanation := "Waiver of subrogation is in place" }])
    else
      ([{ name := "Waiver of Subrogation",
          required_value := "Waiver of Subrogation required",
          actual_value := some "Waiver of Subrogation NOT checked",
          status := "fail",
          explanation := "Missing Waiver of Subrogation. This allows the subcontractor's insurer to sue you after paying a claim. Request this endorsement." }], [], [])
  else ([], [], [])

/-- Workers-comp check (coi.py:202-219); controlled only by the profile flag. -/
def wcRule (coi : CoiData) (req : Requirements) :
    List Finding × List Finding × List Finding :=
  if req.workers_comp_required.getD true then
    if coi.workers_comp then
      ([], [], [{ name := "Workers Compensation",
                  required_value := "Workers Compensation required",
                  actual_value := some "Workers Comp present",
                  status := "pass",
                  explanation := "Workers compensation coverage confirmed" }])
    else
      ([{ name := "Workers Compensation",
          required_value := "Workers Compensation required",
          actual_value := some "Workers Comp NOT shown",
          status := "fail",
          explanation := "No workers compensation coverage shown. This is required for all contractors with employees." }], [], [])
  else ([], [], [])

/-- Umbrella check (coi.py:221-240), applicable only when the profile requires it; a
shortfall is a warning, not a critical gap. -/
def umbRule (coi : CoiData) (req : Requirements) :
    List Finding × List Finding × List Finding :=
  if req.umbrella_required.getD false then
    let umbrella_limit := parse_limit_to_number (coi.umbrella_limit.getD "")
    let req_umbrella := req.umbrella_minimum.getD 2000000
    if umbrella_limit ≥ req_umbrella then
      ([], [], [{ name := "Umbrella/Excess Liability",
                  required_value := "$" ++ commaInt req_umbrella ++ " umbrella required",
                  actual_value := some (pyOr coi.umbrella_limit "Not specified"),
                  status := "pass",
                  explanation := "Umbrella coverage meets requirement" }])
    else
      ([], [{ name := "Umbrella/Excess Liability",
              required_value := "$" ++ commaInt req_umbrella ++ " umbrella required",
              actual_value := some (pyOr coi.umbrella_limit "Not shown"),
              status := "warning",
              explanation := "Umbrella coverage is insufficient or not shown. Contract requires $" ++ commaInt req_umbrella ++ "." }], [])
  else ([], [], [])

/-- Anti-indemnity state note (coi.py:254-272); the table `type` values are all strings,
so `not in ['None', None]` is `≠ "None"`.  Warnings only. -/
def antiIndemnityFindings (su : String) : List Finding :=
  match STATE_ANTI_INDEMNITY.lookup su with
  | some a =>
    if a.voids_ai_for_sole_negligence then
      let mitigation := (STATE_MITIGATIONS.lookup su).getD "Review coverage with your broker."
      [{ name := su ++ " Anti-Indemnity Note",
         required_value := "AI coverage for shared fault",
         actual_value := some "Limited by state statute",
         status := "warning",
         explanation := su ++ "'s broad anti-indemnity statute limits AI coverage when you share fault. " ++ mitigation }]
    else if a.type ≠ "None" then
      [{ name := su ++ " Anti-Indemnity",
         required_value := "Standard AI coverage",
         actual_value := some (a.type ++ " statute applies"),
         status := "warning",
         explanation := a.type ++ " anti-indemnity statute. Insurance savings clause " ++
           (if a.insurance_savings_clause then "preserves AI coverage" else "does not apply") ++ "." }]
    else []
  | none => []

/-- Workers-comp state-specific branch (coi.py:275-301): (warnings, passed) contribution.
Note the voluntary-state advisory is appended to the WARNINGS list even when its `status`
field is `"pass"` (workers comp present). -/
def stateWcFindings (coi : CoiData) (su : String) (w : WCRule) :
    List Finding × List Finding :=
  if !w.required then
    ([{ name := su ++ " Workers Comp",
        required_value := "Workers Comp recommended",
        actual_value := some (if coi.workers_comp then "Present" else "Not shown"),
        status := if !coi.workers_comp then "warning" else "pass",
        explanation := su ++ " is the only state where Workers' Compensation is fully voluntary. " ++
          w.construction_specific ++ " However, most contracts still require it. Non-subscribers face unlimited liability exposure." }], [])
  else if w.monopolistic then
    ([], [{ name := su ++ " Monopolistic State Fund",
            required_value := "State fund coverage",
            actual_value := some "Monopolistic state rules apply",
            status := "pass",
            explanation := su ++ " is a monopolistic state - WC must be purchased through the state fund (" ++ su ++ " State Insurance Fund). Private insurers cannot write WC here." }])
  else
    match w.threshold with
    | some t =>
      if t > 1 then
        ([{ name := su ++ " WC Threshold",
            required_value := "WC required for " ++ toString t ++ "+ employees",
            actual_value := some ("Construction rule: " ++ w.construction_specific),
            status := "warning",
            explanation := su ++ " requires WC for " ++ toString t ++ "+ employees. Construction-specific: " ++
              w.construction_specific ++ ". Verify employee count threshold is met." }], [])
      else ([], [])
    | none => ([], [])

/-- State GL licensing minimum (coi.py:303-315).  The `actual_value` here is the raw
`coi_data['gl_limit_per_occurrence']` value (the dict key is always present, so the
`.get` default never fires and a `None` value passes through). -/
def stateGlFindings (coi : CoiData) (su : String) : List Finding :=
  match STATE_GL_REQUIREMENTS.lookup su with
  | some g =>
    if g.required_for_license then
      match g.minimum_per_occurrence with
      | some state_min =>
        let coi_limit := parse_limit_to_number (coi.gl_limit_per_occurrence.getD "")
        if coi_limit < state_min then
          [{ name := su ++ " State GL Minimum",
             required_value := "$" ++ commaInt state_min ++ " state minimum",
             actual_value := coi.gl_limit_per_occurrence,
             status := "warning",
             explanation := su ++ " requires minimum $" ++ commaInt state_min ++
               " GL for contractor licensing. " ++ g.notes ++ " Current coverage may not meet state licensing requirements." }]
        else []
      | none => []
    else []
  | none => []

/-- Dollar exposure of one critical gap, from its `name` (coi.py:326-333): Python
substring tests `'GL' in name`, `'Additional Insured' in name`, `'Waiver' in name`,
in that order. -/
def gapAmount (n : String) : Nat :=
  if "GL".data <:+: n.data then 1000000
  else if "Additional Insured".data <:+: n.data then 3500000
  else if "Waiver".data <:+: n.data then 500000
  else 0

/-- Python `str.upper()`, per character (state codes are ASCII). -/
def upperStr (s : String) : String :=
  String.mk (s.data.map Char.toUpper)

/-- `state.upper() if state else None` (the empty string is falsy). -/
def resolveStateUpper (state : Option String) : Option String :=
  match state with
  | some s => if s = "" then none else some (upperStr s)
  | none => none

/-- The `critical_gaps` list: chronological appends of the six profile rules (the state
section never appends a critical). -/
def baseCriticalGaps (coi : CoiData) (req : Requirements) : List Finding :=
  (glPerOccRule coi req).1 ++ (glAggRule coi req).1 ++ (aiRule coi req).1 ++
  (wosRule coi req).1 ++ (wcRule coi req).1 ++ (umbRule coi req).1

/-- Profile-rule warnings, in chronological append order. -/
def baseWarnings (coi : CoiData) (req : Requirements) : List Finding :=
  (glPerOccRule coi req).2.1 ++ (glAggRule coi req).2.1 ++ (aiRule coi req).2.1 ++
  (wosRule coi req).2.1 ++ (wcRule coi req).2.1 ++ (umbRule coi req).2.1

/-- Profile-rule passes, in chronological append order. -/
def basePassed (coi : CoiData) (req : Requirements) : List Finding :=
  (glPerOccRule coi req).2.2 ++ (glAggRule coi req).2.2 ++ (aiRule coi req).2.2 ++
  (wosRule coi req).2.2 ++ (wcRule coi req).2.2 ++ (umbRule coi req).2.2

/-- Warnings appended by the `if state_upper:` block (coi.py:252-315), in order:
anti-indemnity, workers-comp state rules, state GL minimum. -/
def stateWarningsList (coi : CoiData) (state_upper : Option String) : List Finding :=
  match state_upper with
  | some su =>
    antiIndemnityFindings su ++
      (match STATE_WORKERS_COMP.lookup su with
       | some w => (stateWcFindings coi su w).1
       | none => []) ++
      stateGlFindings coi su
  | none => []

/-- Passes appended by the state block (only the monopolistic-state entry). -/
def statePassedList (coi : CoiData) (state_upper : Option String) : List Finding :=
  match state_upper with
  | some su =>
    (match STATE_WORKERS_COMP.lookup su with
     | some w => (stateWcFindings coi su w).2
     | none => [])
  | none => []

/-- The full `warnings` list of the report. -/
def warningsList (coi : CoiData) (req : Requirements) (state_upper : Option String) :
    List Finding :=
  baseWarnings coi req ++ stateWarningsList coi state_upper

/-- The full `passed` list of the report. -/
def passedList (coi : CoiData) (req : Requirements) (state_upper : Option String) :
    List Finding :=
  basePassed coi req ++ statePassedList coi state_upper

/-- `mock_compliance_check` (src/backend/services/mock/coi.py:99-390).  The `auto_rules`
lookup of the source is dead code (assigned, never read) and is not modelled.  List
concatenation reproduces the chronological `append` order of the source. -/
def mock_compliance_check (coi : CoiData) (req : Requirements) (state : Option String) :
    ComplianceResult :=
  let state_upper := resolveStateUpper state
  let critical_gaps := baseCriticalGaps coi req
  let warnings := warningsList coi req state_upper
  let passed := passedList coi req state_upper
  let overall_status :=
    if critical_gaps.length > 0 then "non-compliant"
    else if warnings.length > 0 then "needs-review"
    else "compliant"
  let total_gap : Nat := (critical_gaps.map (fun g => gapAmount g.name)).sum
  let risk_exposure :=
    if total_gap > 0 then "$" ++ commaNat total_gap ++ "+ potential liability exposure"
    else "Minimal risk exposure"
  let extraction_metadata : ExtractionMetadata := {
    overall_confidence := 0.75
    needs_human_review := decide (critical_gaps.length > 0) || !coi.additional_insured_checked
    review_reasons := ["Mock extraction - recommend verification with actual document"] ++
      (critical_gaps.take 2).map (fun g => "Critical gap: " ++ g.name)
    low_confidence_fields :=
      if !coi.cg_20_10_endorsement then ["cg_20_10_endorsement", "cg_20_37_endorsement"] else []
    extraction_notes := "Mock extraction for testing purposes" }
  { overall_status := overall_status
    critical_gaps := critical_gaps
    warnings := warnings
    passed := passed
    risk_exposure := risk_exposure
    extraction_metadata := extraction_metadata }

/-- The six critical fields of `calculate_extraction_confidence`
(src/backend/services/llm.py:66-73), paired with their confidence entries, in
declaration order. -/
def criticalFieldList (coi : CoiData) : List (String × Option ConfAnn) :=
  [("gl_limit_per_occurrence", coi.confidence.gl_limit_per_occurrence),
   ("gl_limit_aggregate", coi.confidence.gl_limit_aggregate),
   ("additional_insured_checked", coi.confidence.additional_insured_checked),
   ("waiver_of_subrogation_checked", coi.confidence.waiver_of_subrogation_checked),
   ("cg_20_10_endorsement", coi.confidence.cg_20_10_endorsement),
   ("cg_20_37_endorsement", coi.confidence.cg_20_37_endorsement)]

/-- `field_conf.get('level', 'low')` with an absent entry read as `{}` (llm.py:81-82). -/
def confLevelOf (a : Option ConfAnn) : String :=
  match a with
  | some ann => ann.level.getD "low"
  | none => "low"

/-- `field_conf.get('reason', 'Not clearly visible in document')` (llm.py:91). -/
def confReasonOf (a : Option ConfAnn) : String :=
  match a with
  | some ann => ann.reason.getD "Not clearly visible in document"
  | none => "Not clearly visible in document"

/-- Per-field score of the loop body (llm.py:84-89): the `else` branch (anything other
than `"high"` / `"medium"`) scores 0.3 and marks the field low-confidence. -/
def confScoreOf (a : Option ConfAnn) : ℚ :=
  if confLevelOf a = "high" then 1.0
  else if confLevelOf a = "medium" then 0.7
  else 0.3

/-- The fields collected into `low_confidence_fields` by the loop. -/
def lowConfFieldEntries (coi : CoiData) : List (String × Option ConfAnn) :=
  (criticalFieldList coi).filter
    (fun p => !(confLevelOf p.2 == "high") && !(confLevelOf p.2 == "medium"))

/-- The full `review_reasons` list before the `[:5]` truncation (llm.py:90-105): one
reason per low-confidence field, then two fact-derived reasons. -/
def reviewReasonsFull (coi : CoiData) : List String :=
  (lowConfFieldEntries coi).map (fun p => p.1 ++ ": " ++ confReasonOf p.2) ++
  (if !coi.additional_insured_checked then
    ["Additional Insured not checked - verify this is intentional"] else []) ++
  (if !coi.cg_20_10_endorsement && !coi.cg_20_37_endorsement then
    ["No CG endorsements found - may indicate incomplete coverage"] else [])

/-- `calculate_extraction_confidence` (src/backend/services/llm.py:61-113). -/
def calculate_extraction_confidence (coi : CoiData) : ExtractionMetadata :=
  let confidence_scores : List ℚ := (criticalFieldList coi).map (fun p => confScoreOf p.2)
  let low_confidence_fields : List String := (lowConfFieldEntries coi).map Prod.fst
  let overall_confidence : ℚ :=
    if confidence_scores.length = 0 then 0.5
    else confidence_scores.sum / (confidence_scores.length : ℚ)
  let needs_human_review : Bool :=
    decide (overall_confidence < 0.8) || decide (low_confidence_fields.length > 0)
  { overall_confidence := round2 overall_confidence
    needs_human_review := needs_human_review
    review_reasons := (reviewReasonsFull coi).take 5
    low_confidence_fields := low_confidence_fields
    extraction_notes := "Analyzed " ++ toString (criticalFieldList coi).length ++
      " critical fields. " ++ toString low_confidence_fields.length ++ " have low confidence." }

/-- Python truthiness of the `project_type` input (`None` and `""` are falsy). -/
def ptTruthy (pt : Option String) : Bool :=
  match pt with
  | some s => s ≠ ""
  | none => false

/-- Requirements resolution of the `check_coi_compliance` route
(src/backend/routers/analyzers.py:62-68): a preset key that is present wins; otherwise
the caller-supplied custom requirements; otherwise the `commercial_construction`
default.  No branch raises. -/
def resolveRequirements (pt : Option String) (custom : Option Requirements) : Requirements :=
  if ptTruthy pt ∧ (PROJECT_TYPE_REQUIREMENTS.lookup (pt.getD "")).isSome then
    (PROJECT_TYPE_REQUIREMENTS.lookup (pt.getD "")).getD req_commercial_construction
  else
    match custom with
    | some c => c
    | none => req_commercial_construction

/-! ## Claim-side (specification) definitions -/

/-- All findings of a report, in report order. -/
def allFindings (r : ComplianceResult) : List Finding :=
  r.critical_gaps ++ r.warnings ++ r.passed

/-- The status the spec assigns to a multiset of finding severities (the code writes
critical severity as `"fail"`). -/
def statusOfSeverities (ss : List String) : String :=
  if "fail" ∈ ss then "non-compliant"
  else if "warning" ∈ ss then "needs-review"
  else "compliant"

/-- Number of findings with a given rule name. -/
def cnt (n : String) (l : List Finding) : Nat :=
  (l.filter (fun f => f.name == n)).length

/-- The spec's fixed per-rule-category exposure table, keyed by exact rule name
(both GL rules are GL-category gaps; a workers-comp gap has no entry). -/
def exposureTable (n : String) : Nat :=
  if n = "GL Per Occurrence Limit" then 1000000
  else if n = "GL Aggregate Limit" then 1000000
  else if n = "Additional Insured Status" then 3500000
  else if n = "Waiver of Subrogation" then 500000
  else 0

/-- The spec's per-field confidence score: high 1.0, medium 0.7, low or absent 0.3
(the code also scores unrecognized level strings 0.3). -/
def claimFieldScore (a : Option ConfAnn) : ℚ :=
  match a with
  | some ann =>
    match ann.level with
    | some l => if l = "high" then 1.0 else if l = "medium" then 0.7 else 0.3
    | none => 0.3
  | none => 0.3

/-- The spec's overall confidence: arithmetic mean of the six critical-field scores. -/
def claimMean (coi : CoiData) : ℚ :=
  ((criticalFieldList coi).map (fun p => claimFieldScore p.2)).sum / 6

/-- The parser the claim describes, word for word: strip `$` and `,`, a trailing
(case-insensitive, hence post-upper) `K`/`M` suffix multiplies the numeric prefix by
1e3/1e6, otherwise the remainder is parsed as an integer, and any unparsable value
coerces to 0. -/
def parse_limit_spec (s : String) : Int :=
  if s = "" then 0
  else
    let cleaned := cleanLimitChars s
    match cleaned.getLast? with
    | some 'M' =>
      (match pyFloatChars cleaned.dropLast with
       | some f => intOfFloatMul f 1000000
       | none => 0)
    | some 'K' =>
      (match pyFloatChars cleaned.dropLast with
       | some f => intOfFloatMul f 1000
       | none => 0)
    | _ =>
      (match pyIntChars cleaned with
       | some n => n
       | none => 0)

/-! ## Sample inputs used by concrete theorems -/

/-- Scenario B of the spec: a fully compliant fact set for the commercial-construction
profile (no confidence annotations, as the mock extractor produces). -/
def coiScenarioB : CoiData := {
  gl_limit_per_occurrence := some "$1,500,000"
  gl_limit_aggregate := some "$2,500,000"
  workers_comp := true
  umbrella_limit := some "$2,500,000"
  additional_insured_checked := true
  waiver_of_subrogation_checked := true
  cg_20_10_endorsement := true }

/-- Scenario B with the additional-insured box unchecked. -/
def coiScenarioB_noAI : CoiData :=
  { coiScenarioB with additional_insured_checked := false }

/-- Scenario B with workers comp absent: its only critical finding is the
workers-compensation one. -/
def coiWcOnly : CoiData :=
  { coiScenarioB with workers_comp := false }

/-- The commercial-construction profile with workers comp made not required. -/
def reqNoWC : Requirements :=
  { req_commercial_construction with workers_comp_required := some false }

/-- Scenario B with confidence annotations: five critical fields high, one low. -/
def coiFiveHighOneLow : CoiData :=
  { coiScenarioB with confidence := {
      gl_limit_per_occurrence := some ⟨some "high", none⟩
      gl_limit_aggregate := some ⟨some "high", none⟩
      additional_insured_checked := some ⟨some "high", none⟩
      waiver_of_subrogation_checked := some ⟨some "high", none⟩
      cg_20_10_endorsement := some ⟨some "high", none⟩
      cg_20_37_endorsement := some ⟨some "low", none⟩ } }

/-- The same annotations with the additional-insured fact flipped off. -/
def coiFiveHighOneLow_noAI : CoiData :=
  { coiFiveHighOneLow with additional_insured_checked := false }

/-! ## Helper lemmas: statuses and names of the findings each component can emit -/

theorem glPerOccRule_crit {coi : CoiData} {req : Requirements} {f : Finding}
    (h : f ∈ (glPerOccRule coi req).1) :
    f.status = "fail" ∧ f.name = "GL Per Occurrence Limit" := by
  simp only [glPerOccRule] at h
  split at h <;> simp_all

theorem glPerOccRule_warn (coi : CoiData) (req : Requirements) :
    (glPerOccRule coi req).2.1 = [] := by
  simp only [glPerOccRule]
  split <;> rfl

theorem glPerOccRule_pass {coi : CoiData} {req : Requirements} {f : Finding}
    (h : f ∈ (glPerOccRule coi req).2.2) :
    f.status = "pass" ∧ f.name = "GL Per Occurrence Limit" := by
  simp only [glPerOccRule] at h
  split at h <;> simp_all

theorem glAggRule_crit {coi : CoiData} {req : Requirements} {f : Finding}
    (h : f ∈ (glAggRule coi req).1) :
    f.status = "fail" ∧ f.name = "GL Aggregate Limit" := by
  simp only [glAggRule] at h
  split at h <;> simp_all

theorem glAggRule_warn (coi : CoiData) (req : Requirements) :
    (glAggRule coi req).2.1 = [] := by
  simp only [glAggRule]
  split <;> rfl

theorem glAggRule_pass {coi : CoiData} {req : Requirements} {f : Finding}
    (h : f ∈ (glAggRule coi req).2.2) :
    f.status = "pass" ∧ f.name = "GL Aggregate Limit" := by
  simp only [glAggRule] at h
  split at h <;> simp_all

theorem aiRule_crit {coi : CoiData} {req : Requirements} {f : Finding}
    (h : f ∈ (aiRule coi req).1) :
    f.status = "fail" ∧ f.name = "Additional Insured Status" := by
  simp only [aiRule] at h
  split at h <;> [skip; simp_all]
  split at h <;> [skip; simp_all]
  split at h <;> simp_all

theorem aiRule_warn {coi : CoiData} {req : Requirements} {f : Finding}
    (h : f ∈ (aiRule coi req).2.1) :
    f.status = "warning" ∧ f.name = "Additional Insured Endorsement" := by
  simp only [aiRule] at h
  split at h <;> [skip; simp_all]
  split at h <;> [skip; simp_all]
  split at h <;> simp_all

theorem aiRule_pass {coi : CoiData} {req : Requirements} {f : Finding}
    (h : f ∈ (aiRule coi req).2.2) :
    f.status = "pass" ∧ f.name = "Additional Insured Status" := by
  simp only [aiRule] at h
  split at h <;> [skip; simp_all]
  split at h <;> [skip; simp_all]
  split at h <;> simp_all

theorem wosRule_crit {coi : CoiData} {req : Requirements} {f : Finding}
    (h : f ∈ (wosRule coi req).1) :
    f.status = "fail" ∧ f.name = "Waiver of Subrogation" := by
  simp only [wosRule] at h
  split at h <;> [skip; simp_all]
  split at h <;> simp_all

theorem wosRule_warn (coi : CoiData) (req : Requirements) :
    (wosRule coi req).2.1 = [] := by
  simp only [wosRule]
  split <;> [skip; rfl]
  split <;> rfl

theorem wosRule_pass {coi : CoiData} {req : Requirements} {f : Finding}
    (h : f ∈ (wosRule coi req).2.2) :
    f.status = "pass" ∧ f.name = "Waiver of Subrogation" := by
  simp only [wosRule] at h
  split at h <;> [skip; simp_all]
  split at h <;> simp_all

theorem wcRule_crit {coi : CoiData} {req : Requirements} {f : Finding}
    (h : f ∈ (wcRule coi req).1) :
    f.status = "fail" ∧ f.name = "Workers Compensation" := by
  simp only [wcRule] at h
  split at h <;> [skip; simp_all]
  split at h <;> simp_all

theorem wcRule_warn (coi : CoiData) (req : Requirements) :
    (wcRule coi req).2.1 = [] := by
  simp only [wcRule]
  split <;> [skip; rfl]
  split <;> rfl

theorem wcRule_pass {coi : CoiData} {req : Requirements} {f : Finding}
    (h : f ∈ (wcRule coi req).2.2) :
    f.status = "pass" ∧ f.name = "Workers Compensation" := by
  simp only [wcRule] at h
  split at h <;> [skip; simp_all]
  split at h <;> simp_all

theorem umbRule_crit (coi : CoiData) (req : Requirements) :
    (umbRule coi req).1 = [] := by
  simp only [umbRule]
  split <;> [skip; rfl]
  split <;> rfl

theorem umbRule_warn {coi : CoiData} {req : Requirements} {f : Finding}
    (h : f ∈ (umbRule coi req).2.1) :
    f.status = "warning" ∧ f.name = "Umbrella/Excess Liability" := by
  simp only [umbRule] at h
  split at h <;> [skip; simp_all]
  split at h <;> simp_all

theorem umbRule_pass {coi : CoiData} {req : Requirements} {f : Finding}
    (h : f ∈ (umbRule coi req).2.2) :
    f.status = "pass" ∧ f.name = "Umbrella/Excess Liability" := by
  simp only [umbRule] at h
  split at h <;> [skip; simp_all]
  split at h <;> simp_all

theorem antiIndemnityFindings_mem {su : String} {f : Finding}
    (h : f ∈ antiIndemnityFindings su) :
    f.status = "warning" ∧
      (f.name = su ++ " Anti-Indemnity Note" ∨ f.name = su ++ " Anti-Indemnity") := by
  simp only [antiIndemnityFindings] at h
  split at h
  case h_1 a ha =>
    split at h <;> [simp_all; skip]
    split at h <;> simp_all
  case h_2 => simp_all

theorem stateWcFindings_warn_mem {coi : CoiData} {su : String} {w : WCRule} {f : Finding}
    (h : f ∈ (stateWcFindings coi su w).1) :
    (f.name = su ++ " Workers Comp" ∨ f.name = su ++ " WC Threshold") ∧
      (f.status = "warning" ∨ (f.status = "pass" ∧ w.required = false)) := by
  simp only [stateWcFindings] at h
  split at h
  next hreq =>
    simp only [List.mem_singleton] at h
    subst h
    refine ⟨Or.inl rfl, ?_⟩
    by_cases hwc : coi.workers_comp
    · exact Or.inr ⟨by simp [hwc], by simpa using hreq⟩
    · exact Or.inl (by simp [hwc])
  next =>
    split at h <;> [simp_all; skip]
    split at h
    · split at h <;> simp_all
    · simp_all

theorem stateWcFindings_pass_mem {coi : CoiData} {su : String} {w : WCRule} {f : Finding}
    (h : f ∈ (stateWcFindings coi su w).2) :
    f.status = "pass" ∧ f.name = su ++ " Monopolistic State Fund" := by
  simp only [stateWcFindings] at h
  split at h <;> [simp_all; skip]
  split at h <;> [simp_all; skip]
  split at h
  · split at h <;> simp_all
  · simp_all

theorem stateGlFindings_mem {coi : CoiData} {su : String} {f : Finding}
    (h : f ∈ stateGlFindings coi su) :
    f.status = "warning" ∧ f.name = su ++ " State GL Minimum" := by
  simp only [stateGlFindings] at h
  split at h <;> [skip; simp_all]
  split at h <;> [skip; simp_all]
  split at h <;> [skip; simp_all]
  split at h <;> simp_all

/-- A successful association-list lookup means the pair is in the list. -/
theorem mem_of_lookup_eq_some {l : List (String × WCRule)} {a : String} {b : WCRule}
    (h : l.lookup a = some b) : (a, b) ∈ l := by
  induction l with
  | nil => simp [List.lookup] at h
  | cons p t ih =>
    rw [List.lookup] at h
    split at h
    · next heq =>
      injection h with h2
      subst h2
      have ha : a = p.1 := by simpa using heq
      subst ha
      exact List.mem_cons_self _ _
    · exact List.mem_cons_of_mem _ (ih h)

/-- TX is the only state whose workers-comp table entry has `required = false`. -/
theorem wc_not_required_imp_TX {su : String} {w : WCRule}
    (hl : STATE_WORKERS_COMP.lookup su = some w) (hr : w.required = false) : su = "TX" := by
  have hmem := mem_of_lookup_eq_some hl
  have hall : STATE_WORKERS_COMP.all (fun p => !(p.2.required == false) || (p.1 == "TX")) = true := by
    decide
  rw [List.all_eq_true] at hall
  have h2 := hall _ hmem
  simp only [hr, beq_self_eq_true, Bool.not_true, Bool.false_or, beq_iff_eq] at h2
  exact h2

/-- The TX anti-indemnity entry produces a genuine warning-severity finding. -/
theorem antiIndemnityFindings_TX :
    ∃ f ∈ antiIndemnityFindings "TX", f.status = "warning" := by decide

theorem baseCriticalGaps_status {coi : CoiData} {req : Requirements} {f : Finding}
    (h : f ∈ baseCriticalGaps coi req) : f.status = "fail" := by
  simp only [baseCriticalGaps, List.mem_append] at h
  rcases h with ((((h | h) | h) | h) | h) | h
  · exact (glPerOccRule_crit h).1
  · exact (glAggRule_crit h).1
  · exact (aiRule_crit h).1
  · exact (wosRule_crit h).1
  · exact (wcRule_crit h).1
  · rw [umbRule_crit] at h
    simp at h

theorem baseWarnings_status {coi : CoiData} {req : Requirements} {f : Finding}
    (h : f ∈ baseWarnings coi req) : f.status = "warning" := by
  simp only [baseWarnings, List.mem_append] at h
  rcases h with ((((h | h) | h) | h) | h) | h
  · rw [glPerOccRule_warn] at h
    simp at h
  · rw [glAggRule_warn] at h
    simp at h
  · exact (aiRule_warn h).1
  · rw [wosRule_warn] at h
    simp at h
  · rw [wcRule_warn] at h
    simp at h
  · exact (umbRule_warn h).1

theorem basePassed_status {coi : CoiData} {req : Requirements} {f : Finding}
    (h : f ∈ basePassed coi req) : f.status = "pass" := by
  simp only [basePassed, List.mem_append] at h
  rcases h with ((((h | h) | h) | h) | h) | h
  · exact (glPerOccRule_pass h).1
  · exact (glAggRule_pass h).1
  · exact (aiRule_pass h).1
  · exact (wosRule_pass h).1
  · exact (wcRule_pass h).1
  · exact (umbRule_pass h).1

theorem statePassedList_status {coi : CoiData} {su? : Option String} {f : Finding}
    (h : f ∈ statePassedList coi su?) : f.status = "pass" := by
  simp only [statePassedList] at h
  split at h
  · split at h
    · exact (stateWcFindings_pass_mem h).1
    · simp at h
  · simp at h

theorem stateWarningsList_status {coi : CoiData} {su? : Option String} {f : Finding}
    (h : f ∈ stateWarningsList coi su?) : f.status = "warning" ∨ f.status = "pass" := by
  simp only [stateWarningsList] at h
  split at h
  case h_2 => simp at h
  case h_1 su =>
    simp only [List.mem_append] at h
    rcases h with (h | h) | h
    · exact Or.inl (antiIndemnityFindings_mem h).1
    · split at h
      · rcases (stateWcFindings_warn_mem h).2 with hw | ⟨hp, _⟩
        · exact Or.inl hw
        · exact Or.inr hp
      · simp at h
    · exact Or.inl (stateGlFindings_mem h).1

/-- Whenever the warnings list is non-empty, it holds at least one finding whose severity
field really is `"warning"`.  The delicate case is the voluntary-workers-comp advisory,
whose severity is `"pass"` when workers comp is present: its state must be TX, and TX's
anti-indemnity entry always contributes a warning-severity finding first. -/
theorem warningsList_has_warning {coi : CoiData} {req : Requirements} {su? : Option String}
    (hne : warningsList coi req su? ≠ []) :
    ∃ f ∈ warningsList coi req su?, f.status = "warning" := by
  cases hb : baseWarnings coi req with
  | cons f t =>
    refine ⟨f, ?_, baseWarnings_status (by rw [hb]; exact List.mem_cons_self _ _)⟩
    simp [warningsList, hb]
  | nil =>
    cases su? with
    | none => simp [warningsList, stateWarningsList, hb] at hne
    | some su =>
      cases ha : antiIndemnityFindings su with
      | cons f t =>
        refine ⟨f, ?_, (antiIndemnityFindings_mem
          (by rw [ha]; exact List.mem_cons_self _ _)).1⟩
        simp [warningsList, stateWarningsList, ha]
      | nil =>
        cases hlk : STATE_WORKERS_COMP.lookup su with
        | none =>
          cases hg : stateGlFindings coi su with
          | nil => simp [warningsList, stateWarningsList, hb, ha, hlk, hg] at hne
          | cons f t =>
            refine ⟨f, ?_, (stateGlFindings_mem
              (by rw [hg]; exact List.mem_cons_self _ _)).1⟩
            simp [warningsList, stateWarningsList, hg, hlk]
        | some w =>
          cases hw : (stateWcFindings coi su w).1 with
          | nil =>
            cases hg : stateGlFindings coi su with
            | nil => simp [warningsList, stateWarningsList, hb, ha, hlk, hw, hg] at hne
            | cons f t =>
              refine ⟨f, ?_, (stateGlFindings_mem
                (by rw [hg]; exact List.mem_cons_self _ _)).1⟩
              simp [warningsList, stateWarningsList, hg, hlk]
          | cons f t =>
            have hmem : f ∈ (stateWcFindings coi su w).1 := by
              rw [hw]
              exact List.mem_cons_self _ _
            rcases (stateWcFindings_warn_mem hmem).2 with hws | ⟨_, hreq⟩
            · refine ⟨f, ?_, hws⟩
              simp [warningsList, stateWarningsList, hlk, hw]
            · have hTX : su = "TX" := wc_not_required_imp_TX hlk hreq
              subst hTX
              rcases antiIndemnityFindings_TX with ⟨g, hg, _⟩
              rw [ha] at hg
              simp at hg

theorem mock_fields (coi : CoiData) (req : Requirements) (st : Option String) :
    (mock_compliance_check coi req st).critical_gaps = baseCriticalGaps coi req ∧
    (mock_compliance_check coi req st).warnings =
      warningsList coi req (resolveStateUpper st) ∧
    (mock_compliance_check coi req st).passed =
      passedList coi req (resolveStateUpper st) := by
  refine ⟨rfl, rfl, rfl⟩

/-- C1.  `overall_status` is the function of the multiset of emitted severities the spec
describes: `"non-compliant"` iff a critical (status `"fail"`) finding exists, else
`"needs-review"` iff a warning-severity finding exists, else `"compliant"`. -/
theorem overall_status_of_severities (coi : CoiData) (req : Requirements)
    (st : Option String) :
    (mock_compliance_check coi req st).overall_status =
      statusOfSeverities ((allFindings (mock_compliance_check coi req st)).map
        Finding.status) := by
  have hC : (mock_compliance_check coi req st).critical_gaps = baseCriticalGaps coi req := rfl
  have hW : (mock_compliance_check coi req st).warnings =
      warningsList coi req (resolveStateUpper st) := rfl
  have hP : (mock_compliance_check coi req st).passed =
      passedList coi req (resolveStateUpper st) := rfl
  have hS : (mock_compliance_check coi req st).overall_status =
      (if (baseCriticalGaps coi req).length > 0 then "non-compliant"
       else if (warningsList coi req (resolveStateUpper st)).length > 0 then "needs-review"
       else "compliant") := rfl
  rw [allFindings, hC, hW, hP, hS]
  by_cases hc : baseCriticalGaps coi req = []
  · by_cases hw : warningsList coi req (resolveStateUpper st) = []
    · have hnofail : "fail" ∉ ((baseCriticalGaps coi req ++
          warningsList coi req (resolveStateUpper st) ++
          passedList coi req (resolveStateUpper st)).map Finding.status) := by
        intro hmem
        simp only [List.mem_map, List.mem_append] at hmem
        rcases hmem with ⟨f, (hf | hf) | hf, hst⟩
        · simp [hc] at hf
        · simp [hw] at hf
        · rcases List.mem_append.mp (by simpa [passedList] using hf) with hb | hs
          · rw [basePassed_status hb] at hst
            exact absurd hst (by decide)
          · rw [statePassedList_status hs] at hst
            exact absurd hst (by decide)
      have hnowarn : "warning" ∉ ((baseCriticalGaps coi req ++
          warningsList coi req (resolveStateUpper st) ++
          passedList coi req (resolveStateUpper st)).map Finding.status) := by
        intro hmem
        simp only [List.mem_map, List.mem_append] at hmem
        rcases hmem with ⟨f, (hf | hf) | hf, hst⟩
        · simp [hc] at hf
        · simp [hw] at hf
        · rcases List.mem_append.mp (by simpa [passedList] using hf) with hb | hs
          · rw [basePassed_status hb] at hst
            exact absurd hst (by decide)
          · rw [statePassedList_status hs] at hst
            exact absurd hst (by decide)
      rw [statusOfSeverities, if_neg hnofail, if_neg hnowarn, hc, hw]
      simp
    · have hnofail : "fail" ∉ ((baseCriticalGaps coi req ++
          warningsList coi req (resolveStateUpper st) ++
          passedList coi req (resolveStateUpper st)).map Finding.status) := by
        intro hmem
        simp only [List.mem_map, List.mem_append] at hmem
        rcases hmem with ⟨f, (hf | hf) | hf, hst⟩
        · simp [hc] at hf
        · rcases List.mem_append.mp (by simpa [warningsList] using hf) with hb | hs
          · rw [baseWarnings_status hb] at hst
            exact absurd hst (by decide)
          · rcases stateWarningsList_status hs with h1 | h1 <;>
              (rw [h1] at hst; exact absurd hst (by decide))
        · rcases List.mem_append.mp (by simpa [passedList] using hf) with hb | hs
          · rw [basePassed_status hb] at hst
            exact absurd hst (by decide)
          · rw [statePassedList_status hs] at hst
            exact absurd hst (by decide)
      have hhaswarn : "warning" ∈ ((baseCriticalGaps coi req ++
          warningsList coi req (resolveStateUpper st) ++
          passedList coi req (resolveStateUpper st)).map Finding.status) := by
        rcases warningsList_has_warning hw with ⟨f, hf, hst⟩
        exact List.mem_map.mpr ⟨f, by simp [hf], hst⟩
      rw [statusOfSeverities, if_neg hnofail, if_pos hhaswarn, hc]
      have : (warningsList coi req (resolveStateUpper st)).length > 0 :=
        List.length_pos.mpr hw
      simp [this]
  · have hhasfail : "fail" ∈ ((baseCriticalGaps coi req ++
        warningsList coi req (resolveStateUpper st) ++
        passedList coi req (resolveStateUpper st)).map Finding.status) := by
      rcases List.exists_mem_of_ne_nil _ hc with ⟨f, hf⟩
      exact List.mem_map.mpr ⟨f, by simp [hf], baseCriticalGaps_status hf⟩
    rw [statusOfSeverities, if_pos hhasfail]
    have : (baseCriticalGaps coi req).length > 0 := List.length_pos.mpr hc
    simp [this]

theorem cnt_nil (n : String) : cnt n [] = 0 := rfl

theorem cnt_append (n : String) (l1 l2 : List Finding) :
    cnt n (l1 ++ l2) = cnt n l1 + cnt n l2 := by
  simp [cnt, List.filter_append]

theorem cnt_singleton (n : String) (f : Finding) :
    cnt n [f] = if f.name = n then 1 else 0 := by
  by_cases h : f.name = n <;>
    simp [cnt, List.filter_cons, List.filter_nil, h]

theorem cnt_eq_zero_of_all_ne {n : String} {l : List Finding}
    (h : ∀ f ∈ l, f.name ≠ n) : cnt n l = 0 := by
  simp only [cnt, List.length_eq_zero]
  rw [List.filter_eq_nil_iff]
  intro f hf
  simp [h f hf]

theorem string_data_append (a b : String) : (a ++ b).data = a.data ++ b.data := by
  cases a
  cases b
  rfl

/-- Two strings differ whenever the second operand of the append is not the
corresponding suffix of the target: lets one refute `su ++ sfx = target` for every
`su` at once. -/
theorem append_ne (a b c : String)
    (h : ¬ b.data = List.drop (c.data.length - b.data.length) c.data) : a ++ b ≠ c := by
  intro e
  apply h
  have hd : a.data ++ b.data = c.data := by rw [← string_data_append, e]
  have hl : c.data.length = a.data.length + b.data.length := by
    rw [← hd, List.length_append]
  rw [hl, Nat.add_sub_cancel, ← hd, List.drop_left]

theorem cnt_glPerOccRule_own (coi : CoiData) (req : Requirements) :
    cnt "GL Per Occurrence Limit" (glPerOccRule coi req).1 +
      cnt "GL Per Occurrence Limit" (glPerOccRule coi req).2.1 +
      cnt "GL Per Occurrence Limit" (glPerOccRule coi req).2.2 = 1 := by
  simp only [glPerOccRule]
  split <;> simp [cnt_singleton, cnt_nil]

theorem cnt_glPerOccRule_other {n : String} (coi : CoiData) (req : Requirements)
    (h : "GL Per Occurrence Limit" ≠ n) :
    cnt n (glPerOccRule coi req).1 + cnt n (glPerOccRule coi req).2.1 +
      cnt n (glPerOccRule coi req).2.2 = 0 := by
  have h1 : cnt n (glPerOccRule coi req).1 = 0 :=
    cnt_eq_zero_of_all_ne (fun f hf => (glPerOccRule_crit hf).2 ▸ h)
  have h2 : cnt n (glPerOccRule coi req).2.1 = 0 := by
    rw [glPerOccRule_warn, cnt_nil]
  have h3 : cnt n (glPerOccRule coi req).2.2 = 0 :=
    cnt_eq_zero_of_all_ne (fun f hf => (glPerOccRule_pass hf).2 ▸ h)
  omega

theorem cnt_glAggRule_own (coi : CoiData) (req : Requirements) :
    cnt "GL Aggregate Limit" (glAggRule coi req).1 +
      cnt "GL Aggregate Limit" (glAggRule coi req).2.1 +
      cnt "GL Aggregate Limit" (glAggRule coi req).2.2 = 1 := by
  simp only [glAggRule]
  split <;> simp [cnt_singleton, cnt_nil]

theorem cnt_glAggRule_other {n : String} (coi : CoiData) (req : Requirements)
    (h : "GL Aggregate Limit" ≠ n) :
    cnt n (glAggRule coi req).1 + cnt n (glAggRule coi req).2.1 +
      cnt n (glAggRule coi req).2.2 = 0 := by
  have h1 : cnt n (glAggRule coi req).1 = 0 :=
    cnt_eq_zero_of_all_ne (fun f hf => (glAggRule_crit hf).2 ▸ h)
  have h2 : cnt n (glAggRule coi req).2.1 = 0 := by
    rw [glAggRule_warn, cnt_nil]
  have h3 : cnt n (glAggRule coi req).2.2 = 0 :=
    cnt_eq_zero_of_all_ne (fun f hf => (glAggRule_pass hf).2 ▸ h)
  omega

theorem cnt_aiRule_own (coi : CoiData) (req : Requirements) :
    (cnt "Additional Insured Status" (aiRule coi req).1 +
      cnt "Additional Insured Status" (aiRule coi req).2.1 +
      cnt "Additional Insured Status" (aiRule coi req).2.2) +
    (cnt "Additional Insured Endorsement" (aiRule coi req).1 +
      cnt "Additional Insured Endorsement" (aiRule coi req).2.1 +
      cnt "Additional Insured Endorsement" (aiRule coi req).2.2) =
      (if req.additional_insured_required.getD true then 1 else 0) := by
  simp only [aiRule]
  split
  · split
    · split <;> simp [cnt_singleton, cnt_nil]
    · simp [cnt_singleton, cnt_nil]
  · simp [cnt_nil]

theorem cnt_aiRule_other {n : String} (coi : CoiData) (req : Requirements)
    (h1 : "Additional Insured Status" ≠ n) (h2 : "Additional Insured Endorsement" ≠ n) :
    cnt n (aiRule coi req).1 + cnt n (aiRule coi req).2.1 +
      cnt n (aiRule coi req).2.2 = 0 := by
  have g1 : cnt n (aiRule coi req).1 = 0 :=
    cnt_eq_zero_of_all_ne (fun f hf => (aiRule_crit hf).2 ▸ h1)
  have g2 : cnt n (aiRule coi req).2.1 = 0 :=
    cnt_eq_zero_of_all_ne (fun f hf => (aiRule_warn hf).2 ▸ h2)
  have g3 : cnt n (aiRule coi req).2.2 = 0 :=
    cnt_eq_zero_of_all_ne (fun f hf => (aiRule_pass hf).2 ▸ h1)
  omega

theorem cnt_wosRule_own (coi : CoiData) (req : Requirements) :
    cnt "Waiver of Subrogation" (wosRule coi req).1 +
      cnt "Waiver of Subrogation" (wosRule coi req).2.1 +
      cnt "Waiver of Subrogation" (wosRule coi req).2.2 =
      (if req.waiver_of_subrogation_required.getD true then 1 else 0) := by
  simp only [wosRule]
  split
  · split <;> simp [cnt_singleton, cnt_nil]
  · simp [cnt_nil]

theorem cnt_wosRule_other {n : String} (coi : CoiData) (req : Requirements)
    (h : "Waiver of Subrogation" ≠ n) :
    cnt n (wosRule coi req).1 + cnt n (wosRule coi req).2.1 +
      cnt n (wosRule coi req).2.2 = 0 := by
  have g1 : cnt n (wosRule coi req).1 = 0 :=
    cnt_eq_zero_of_all_ne (fun f hf => (wosRule_crit hf).2 ▸ h)
  have g2 : cnt n (wosRule coi req).2.1 = 0 := by
    rw [wosRule_warn, cnt_nil]
  have g3 : cnt n (wosRule coi req).2.2 = 0 :=
    cnt_eq_zero_of_all_ne (fun f hf => (wosRule_pass hf).2 ▸ h)
  omega

theorem cnt_wcRule_own (coi : CoiData) (req : Requirements) :
    cnt "Workers Compensation" (wcRule coi req).1 +
      cnt "Workers Compensation" (wcRule coi req).2.1 +
      cnt "Workers Compensation" (wcRule coi req).2.2 =
      (if req.workers_comp_required.getD true then 1 else 0) := by
  simp only [wcRule]
  split
  · split <;> simp [cnt_singleton, cnt_nil]
  · simp [cnt_nil]

theorem cnt_wcRule_other {n : String} (coi : CoiData) (req : Requirements)
    (h : "Workers Compensation" ≠ n) :
    cnt n (wcRule coi req).1 + cnt n (wcRule coi req).2.1 +
      cnt n (wcRule coi req).2.2 = 0 := by
  have g1 : cnt n (wcRule coi req).1 = 0 :=
    cnt_eq_zero_of_all_ne (fun f hf => (wcRule_crit hf).2 ▸ h)
  have g2 : cnt n (wcRule coi req).2.1 = 0 := by
    rw [wcRule_warn, cnt_nil]
  have g3 : cnt n (wcRule coi req).2.2 = 0 :=
    cnt_eq_zero_of_all_ne (fun f hf => (wcRule_pass hf).2 ▸ h)
  omega

theorem cnt_umbRule_own (coi : CoiData) (req : Requirements) :
    cnt "Umbrella/Excess Liability" (umbRule coi req).1 +
      cnt "Umbrella/Excess Liability" (umbRule coi req).2.1 +
      cnt "Umbrella/Excess Liability" (umbRule coi req).2.2 =
      (if req.umbrella_required.getD false then 1 else 0) := by
  simp only [umbRule]
  split
  · split <;> simp [cnt_singleton, cnt_nil]
  · simp [cnt_nil]

theorem cnt_umbRule_other {n : String} (coi : CoiData) (req : Requirements)
    (h : "Umbrella/Excess Liability" ≠ n) :
    cnt n (umbRule coi req).1 + cnt n (umbRule coi req).2.1 +
      cnt n (umbRule coi req).2.2 = 0 := by
  have g1 : cnt n (umbRule coi req).1 = 0 := by
    rw [umbRule_crit, cnt_nil]
  have g2 : cnt n (umbRule coi req).2.1 = 0 :=
    cnt_eq_zero_of_all_ne (fun f hf => (umbRule_warn hf).2 ▸ h)
  have g3 : cnt n (umbRule coi req).2.2 = 0 :=
    cnt_eq_zero_of_all_ne (fun f hf => (umbRule_pass hf).2 ▸ h)
  omega

theorem cnt_stateWarnings_zero {n : String} (coi : CoiData) (su : String)
    (h1 : su ++ " Anti-Indemnity Note" ≠ n) (h2 : su ++ " Anti-Indemnity" ≠ n)
    (h3 : su ++ " Workers Comp" ≠ n) (h4 : su ++ " WC Threshold" ≠ n)
    (h5 : su ++ " State GL Minimum" ≠ n) :
    cnt n (stateWarningsList coi (some su)) = 0 := by
  apply cnt_eq_zero_of_all_ne
  intro f hf
  simp only [stateWarningsList, List.mem_append] at hf
  rcases hf with (hf | hf) | hf
  · rcases (antiIndemnityFindings_mem hf).2 with hn | hn <;> rw [hn] <;> assumption
  · split at hf
    · rcases (stateWcFindings_warn_mem hf).1 with hn | hn <;> rw [hn] <;> assumption
    · simp at hf
  · rw [(stateGlFindings_mem hf).2]
    assumption

theorem cnt_statePassed_zero {n : String} (coi : CoiData) (su : String)
    (h : su ++ " Monopolistic State Fund" ≠ n) :
    cnt n (statePassedList coi (some su)) = 0 := by
  apply cnt_eq_zero_of_all_ne
  intro f hf
  simp only [statePassedList] at hf
  split at hf
  · rw [(stateWcFindings_pass_mem hf).2]
    assumption
  · simp at hf

/-- C7.  Exactly one finding per applicable rule, none for inapplicable rules, and the
compound additional-insured rule emits exactly one finding (under either of its two
names); counts are over the whole report, for every fact set, profile and state. -/
theorem one_finding_per_applicable_rule (coi : CoiData) (req : Requirements)
    (st : Option String) :
    cnt "GL Per Occurrence Limit" (allFindings (mock_compliance_check coi req st)) = 1 ∧
    cnt "GL Aggregate Limit" (allFindings (mock_compliance_check coi req st)) = 1 ∧
    cnt "Waiver of Subrogation" (allFindings (mock_compliance_check coi req st)) =
      (if req.waiver_of_subrogation_required.getD true then 1 else 0) ∧
    cnt "Workers Compensation" (allFindings (mock_compliance_check coi req st)) =
      (if req.workers_comp_required.getD true then 1 else 0) ∧
    cnt "Umbrella/Excess Liability" (allFindings (mock_compliance_check coi req st)) =
      (if req.umbrella_required.getD false then 1 else 0) ∧
    cnt "Additional Insured Status" (allFindings (mock_compliance_check coi req st)) +
      cnt "Additional Insured Endorsement" (allFindings (mock_compliance_check coi req st)) =
      (if req.additional_insured_required.getD true then 1 else 0) := by
  have hkey : ∀ n : String,
      cnt n (allFindings (mock_compliance_check coi req st)) =
      (cnt n (glPerOccRule coi req).1 + cnt n (glPerOccRule coi req).2.1 +
        cnt n (glPerOccRule coi req).2.2) +
      (cnt n (glAggRule coi req).1 + cnt n (glAggRule coi req).2.1 +
        cnt n (glAggRule coi req).2.2) +
      (cnt n (aiRule coi req).1 + cnt n (aiRule coi req).2.1 +
        cnt n (aiRule coi req).2.2) +
      (cnt n (wosRule coi req).1 + cnt n (wosRule coi req).2.1 +
        cnt n (wosRule coi req).2.2) +
      (cnt n (wcRule coi req).1 + cnt n (wcRule coi req).2.1 +
        cnt n (wcRule coi req).2.2) +
      (cnt n (umbRule coi req).1 + cnt n (umbRule coi req).2.1 +
        cnt n (umbRule coi req).2.2) +
      cnt n (stateWarningsList coi (resolveStateUpper st)) +
      cnt n (statePassedList coi (resolveStateUpper st)) := by
    intro n
    show cnt n (baseCriticalGaps coi req ++
      warningsList coi req (resolveStateUpper st) ++
      passedList coi req (resolveStateUpper st)) = _
    simp only [baseCriticalGaps, warningsList, baseWarnings, passedList, basePassed,
      cnt_append]
    omega
  have hstW : ∀ n : String,
      (∀ su : String, su ++ " Anti-Indemnity Note" ≠ n ∧ su ++ " Anti-Indemnity" ≠ n ∧
        su ++ " Workers Comp" ≠ n ∧ su ++ " WC Threshold" ≠ n ∧
        su ++ " State GL Minimum" ≠ n) →
      cnt n (stateWarningsList coi (resolveStateUpper st)) = 0 := by
    intro n h
    cases resolveStateUpper st with
    | none => rfl
    | some su =>
      exact cnt_stateWarnings_zero coi su (h su).1 (h su).2.1 (h su).2.2.1
        (h su).2.2.2.1 (h su).2.2.2.2
  have hstP : ∀ n : String, (∀ su : String, su ++ " Monopolistic State Fund" ≠ n) →
      cnt n (statePassedList coi (resolveStateUpper st)) = 0 := by
    intro n h
    cases resolveStateUpper st with
    | none => rfl
    | some su => exact cnt_statePassed_zero coi su (h su)
  refine ⟨?_, ?_, ?_, ?_, ?_, ?_⟩
  · rw [hkey]
    have q1 := cnt_glPerOccRule_own coi req
    have q2 := cnt_glAggRule_other (n := "GL Per Occurrence Limit") coi req (by decide)
    have q3 := cnt_aiRule_other (n := "GL Per Occurrence Limit") coi req (by decide) (by decide)
    have q4 := cnt_wosRule_other (n := "GL Per Occurrence Limit") coi req (by decide)
    have q5 := cnt_wcRule_other (n := "GL Per Occurrence Limit") coi req (by decide)
    have q6 := cnt_umbRule_other (n := "GL Per Occurrence Limit") coi req (by decide)
    have q7 := hstW "GL Per Occurrence Limit" (fun su => ⟨append_ne _ _ _ (by decide), append_ne _ _ _ (by decide),
      append_ne _ _ _ (by decide), append_ne _ _ _ (by decide), append_ne _ _ _ (by decide)⟩)
    have q8 := hstP "GL Per Occurrence Limit" (fun su => append_ne _ _ _ (by decide))
    omega
  · rw [hkey]
    have q1 := cnt_glPerOccRule_other (n := "GL Aggregate Limit") coi req (by decide)
    have q2 := cnt_glAggRule_own coi req
    have q3 := cnt_aiRule_other (n := "GL Aggregate Limit") coi req (by decide) (by decide)
    have q4 := cnt_wosRule_other (n := "GL Aggregate Limit") coi req (by decide)
    have q5 := cnt_wcRule_other (n := "GL Aggregate Limit") coi req (by decide)
    have q6 := cnt_umbRule_other (n := "GL Aggregate Limit") coi req (by decide)
    have q7 := hstW "GL Aggregate Limit" (fun su => ⟨append_ne _ _ _ (by decide), append_ne _ _ _ (by decide),
      append_ne _ _ _ (by decide), append_ne _ _ _ (by decide), append_ne _ _ _ (by decide)⟩)
    have q8 := hstP "GL Aggregate Limit" (fun su => append_ne _ _ _ (by decide))
    omega
  · rw [hkey]
    have q1 := cnt_glPerOccRule_other (n := "Waiver of Subrogation") coi req (by decide)
    have q2 := cnt_glAggRule_other (n := "Waiver of Subrogation") coi req (by decide)
    have q3 := cnt_aiRule_other (n := "Waiver of Subrogation") coi req (by decide) (by decide)
    have q4 := cnt_wosRule_own coi req
    have q5 := cnt_wcRule_other (n := "Waiver of Subrogation") coi req (by decide)
    have q6 := cnt_umbRule_other (n := "Waiver of Subrogation") coi req (by decide)
    have q7 := hstW "Waiver of Subrogation" (fun su => ⟨append_ne _ _ _ (by decide), append_ne _ _ _ (by decide),
      append_ne _ _ _ (by decide), append_ne _ _ _ (by decide), append_ne _ _ _ (by decide)⟩)
    have q8 := hstP "Waiver of Subrogation" (fun su => append_ne _ _ _ (by decide))
    omega
  · rw [hkey]
    have q1 := cnt_glPerOccRule_other (n := "Workers Compensation") coi req (by decide)
    have q2 := cnt_glAggRule_other (n := "Workers Compensation") coi req (by decide)
    have q3 := cnt_aiRule_other (n := "Workers Compensation") coi req (by decide) (by decide)
    have q4 := cnt_wosRule_other (n := "Workers Compensation") coi req (by decide)
    have q5 := cnt_wcRule_own coi req
    have q6 := cnt_umbRule_other (n := "Workers Compensation") coi req (by decide)
    have q7 := hstW "Workers Compensation" (fun su => ⟨append_ne _ _ _ (by decide), append_ne _ _ _ (by decide),
      append_ne _ _ _ (by decide), append_ne _ _ _ (by decide), append_ne _ _ _ (by decide)⟩)
    have q8 := hstP "Workers Compensation" (fun su => append_ne _ _ _ (by decide))
    omega
  · rw [hkey]
    have q1 := cnt_glPerOccRule_other (n := "Umbrella/Excess Liability") coi req (by decide)
    have q2 := cnt_glAggRule_other (n := "Umbrella/Excess Liability") coi req (by decide)
    have q3 := cnt_aiRule_other (n := "Umbrella/Excess Liability") coi req (by decide) (by decide)
    have q4 := cnt_wosRule_other (n := "Umbrella/Excess Liability") coi req (by decide)
    have q5 := cnt_wcRule_other (n := "Umbrella/Excess Liability") coi req (by decide)
    have q6 := cnt_umbRule_own coi req
    have q7 := hstW "Umbrella/Excess Liability" (fun su => ⟨append_ne _ _ _ (by decide), append_ne _ _ _ (by decide),
      append_ne _ _ _ (by decide), append_ne _ _ _ (by decide), append_ne _ _ _ (by decide)⟩)
    have q8 := hstP "Umbrella/Excess Liability" (fun su => append_ne _ _ _ (by decide))
    omega
  · rw [hkey, hkey]
    have q1a := cnt_glPerOccRule_other coi req (show "GL Per Occurrence Limit" ≠ "Additional Insured Status" by decide)
    have q1b := cnt_glPerOccRule_other coi req (show "GL Per Occurrence Limit" ≠ "Additional Insured Endorsement" by decide)
    have q2a := cnt_glAggRule_other coi req (show "GL Aggregate Limit" ≠ "Additional Insured Status" by decide)
    have q2b := cnt_glAggRule_other coi req (show "GL Aggregate Limit" ≠ "Additional Insured Endorsement" by decide)
    have q3 := cnt_aiRule_own coi req
    have q4a := cnt_wosRule_other coi req (show "Waiver of Subrogation" ≠ "Additional Insured Status" by decide)
    have q4b := cnt_wosRule_other coi req (show "Waiver of Subrogation" ≠ "Additional Insured Endorsement" by decide)
    have q5a := cnt_wcRule_other coi req (show "Workers Compensation" ≠ "Additional Insured Status" by decide)
    have q5b := cnt_wcRule_other coi req (show "Workers Compensation" ≠ "Additional Insured Endorsement" by decide)
    have q6a := cnt_umbRule_other coi req (show "Umbrella/Excess Liability" ≠ "Additional Insured Status" by decide)
    have q6b := cnt_umbRule_other coi req (show "Umbrella/Excess Liability" ≠ "Additional Insured Endorsement" by decide)
    have q7a := hstW "Additional Insured Status" (fun su => ⟨append_ne _ _ _ (by decide),
      append_ne _ _ _ (by decide), append_ne _ _ _ (by decide), append_ne _ _ _ (by decide),
      append_ne _ _ _ (by decide)⟩)
    have q7b := hstW "Additional Insured Endorsement" (fun su => ⟨append_ne _ _ _ (by decide),
      append_ne _ _ _ (by decide), append_ne _ _ _ (by decide), append_ne _ _ _ (by decide),
      append_ne _ _ _ (by decide)⟩)
    have q8a := hstP "Additional Insured Status" (fun su => append_ne _ _ _ (by decide))
    have q8b := hstP "Additional Insured Endorsement" (fun su => append_ne _ _ _ (by decide))
    omega

/-- C9.  A jurisdiction code missing from every state table behaves exactly like an
omitted jurisdiction: the report is identical. -/
theorem unknown_state_fallback (coi : CoiData) (req : Requirements) (s : String)
    (h1 : STATE_WORKERS_COMP.lookup (upperStr s) = none)
    (h2 : STATE_ANTI_INDEMNITY.lookup (upperStr s) = none)
    (h3 : STATE_GL_REQUIREMENTS.lookup (upperStr s) = none) :
    mock_compliance_check coi req (some s) = mock_compliance_check coi req none := by
  by_cases hs : s = ""
  · subst hs
    rfl
  · have hsu : resolveStateUpper (some s) = some (upperStr s) := by
      simp [resolveStateUpper, hs]
    have hW : stateWarningsList coi (resolveStateUpper (some s)) = [] := by
      rw [hsu]
      simp [stateWarningsList, antiIndemnityFindings, stateGlFindings, h1, h2, h3]
    have hP : statePassedList coi (resolveStateUpper (some s)) = [] := by
      rw [hsu]
      simp [statePassedList, h1]
    simp only [mock_compliance_check, warningsList, passedList, hW, hP]
    simp [stateWarningsList, statePassedList, resolveStateUpper]

/-- C4 (amended).  The exposure estimate is the dollar-formatted sum of the fixed
per-rule table over the critical findings — where both GL rules carry $1,000,000, the
additional-insured rule $3,500,000, waiver of subrogation $500,000, and a
workers-compensation critical carries nothing — and the "Minimal risk exposure" sentinel
appears exactly when that sum is zero (in particular whenever there is no critical
finding, and never as a literal $0). -/
theorem exposure_estimate_eq (coi : CoiData) (req : Requirements) (st : Option String) :
    (mock_compliance_check coi req st).risk_exposure =
      (if 0 < (((mock_compliance_check coi req st).critical_gaps.map
          (fun f => exposureTable f.name)).sum) then
        "$" ++ commaNat (((mock_compliance_check coi req st).critical_gaps.map
          (fun f => exposureTable f.name)).sum) ++ "+ potential liability exposure"
      else "Minimal risk exposure") := by
  have hgap : ∀ f ∈ baseCriticalGaps coi req, gapAmount f.name = exposureTable f.name := by
    intro f hf
    simp only [baseCriticalGaps, List.mem_append] at hf
    rcases hf with ((((h | h) | h) | h) | h) | h
    · rw [(glPerOccRule_crit h).2]
      decide
    · rw [(glAggRule_crit h).2]
      decide
    · rw [(aiRule_crit h).2]
      decide
    · rw [(wosRule_crit h).2]
      decide
    · rw [(wcRule_crit h).2]
      decide
    · rw [umbRule_crit] at h
      simp at h
  have hmap : (baseCriticalGaps coi req).map (fun f => gapAmount f.name) =
      (baseCriticalGaps coi req).map (fun f => exposureTable f.name) :=
    List.map_congr_left hgap
  have hcg : (mock_compliance_check coi req st).critical_gaps = baseCriticalGaps coi req := rfl
  have hre : (mock_compliance_check coi req st).risk_exposure =
      (if 0 < ((baseCriticalGaps coi req).map (fun g => gapAmount g.name)).sum then
        "$" ++ commaNat (((baseCriticalGaps coi req).map (fun g => gapAmount g.name)).sum) ++
          "+ potential liability exposure"
      else "Minimal risk exposure") := rfl
  rw [hre, hcg, hmap]

theorem confScoreOf_eq_claim (a : Option ConfAnn) : confScoreOf a = claimFieldScore a := by
  cases a with
  | none => rfl
  | some ann =>
    cases ann with
    | mk lvl rsn =>
      cases lvl with
      | none => rfl
      | some l => rfl

theorem lowConf_pred_iff (a : Option ConfAnn) :
    ((!(confLevelOf a == "high") && !(confLevelOf a == "medium")) = true) ↔
      claimFieldScore a = 0.3 := by
  rw [← confScoreOf_eq_claim, confScoreOf]
  by_cases h1 : confLevelOf a = "high"
  · simp [h1]
    norm_num
  · by_cases h2 : confLevelOf a = "medium"
    · simp [h1, h2]
      norm_num
    · simp [h1, h2]

theorem criticalFieldList_length (coi : CoiData) : (criticalFieldList coi).length = 6 := rfl

theorem calc_needs_iff (coi : CoiData) :
    (calculate_extraction_confidence coi).needs_human_review = true ↔
      (claimMean coi < 0.8 ∨ ∃ p ∈ criticalFieldList coi, claimFieldScore p.2 = 0.3) := by
  have h : (calculate_extraction_confidence coi).needs_human_review =
      (decide ((if ((criticalFieldList coi).map (fun p => confScoreOf p.2)).length = 0 then
          (0.5 : ℚ)
        else ((criticalFieldList coi).map (fun p => confScoreOf p.2)).sum /
          (((criticalFieldList coi).map (fun p => confScoreOf p.2)).length : ℚ)) < 0.8) ||
       decide (((lowConfFieldEntries coi).map Prod.fst).length > 0)) := rfl
  rw [h]
  have hlen : ((criticalFieldList coi).map (fun p => confScoreOf p.2)).length = 6 := by
    rw [List.length_map, criticalFieldList_length]
  rw [hlen]
  have hmap : (criticalFieldList coi).map (fun p => confScoreOf p.2) =
      (criticalFieldList coi).map (fun p => claimFieldScore p.2) := by
    simp only [confScoreOf_eq_claim]
  rw [hmap]
  have hifeq : (if (6 : Nat) = 0 then (0.5 : ℚ)
      else ((criticalFieldList coi).map (fun p => claimFieldScore p.2)).sum /
        (((6 : Nat)) : ℚ)) = claimMean coi := by
    rw [if_neg (by norm_num), claimMean]
    norm_num
  rw [hifeq]
  simp only [Bool.or_eq_true, decide_eq_true_eq, List.length_map]
  constructor
  · rintro (hlt | hpos)
    · exact Or.inl hlt
    · right
      have hne : lowConfFieldEntries coi ≠ [] := by
        intro hnil
        rw [hnil] at hpos
        simp at hpos
      rw [lowConfFieldEntries, Ne, List.filter_eq_nil_iff] at hne
      push_neg at hne
      rcases hne with ⟨p, hp, hpred⟩
      exact ⟨p, hp, (lowConf_pred_iff p.2).mp (by simpa using hpred)⟩
  · rintro (hlt | ⟨p, hp, hsc⟩)
    · exact Or.inl hlt
    · right
      have hmem : p ∈ lowConfFieldEntries coi := by
        rw [lowConfFieldEntries]
        exact List.mem_filter.mpr ⟨hp, (lowConf_pred_iff p.2).mpr hsc⟩
      have : lowConfFieldEntries coi ≠ [] := by
        intro hnil
        rw [hnil] at hmem
        simp at hmem
      exact List.length_pos.mpr this

theorem calc_conf_only (c1 c2 : CoiData) (h : c1.confidence = c2.confidence) :
    (calculate_extraction_confidence c1).overall_confidence =
      (calculate_extraction_confidence c2).overall_confidence ∧
    (calculate_extraction_confidence c1).needs_human_review =
      (calculate_extraction_confidence c2).needs_human_review ∧
    (calculate_extraction_confidence c1).low_confidence_fields =
      (calculate_extraction_confidence c2).low_confidence_fields := by
  have hcl : criticalFieldList c1 = criticalFieldList c2 := by
    simp only [criticalFieldList, h]
  have hlow : lowConfFieldEntries c1 = lowConfFieldEntries c2 := by
    simp only [lowConfFieldEntries, hcl]
  refine ⟨?_, ?_, ?_⟩
  · show round2 _ = round2 _
    rw [hcl]
  · show (decide _ || decide _) = (decide _ || decide _)
    rw [hcl, hlow]
  · show (lowConfFieldEntries c1).map Prod.fst = (lowConfFieldEntries c2).map Prod.fst
    rw [hlow]

theorem claimFieldScore_medium (r : Option String) :
    claimFieldScore (some ⟨some "medium", r⟩) = 0.7 := by
  show (if "medium" = "high" then (1.0 : ℚ) else if "medium" = "medium" then 0.7 else 0.3) = 0.7
  rw [if_neg (by decide), if_pos rfl]

theorem claimFieldScore_low (r : Option String) :
    claimFieldScore (some ⟨some "low", r⟩) = 0.3 := by
  show (if "low" = "high" then (1.0 : ℚ) else if "low" = "medium" then 0.7 else 0.3) = 0.3
  rw [if_neg (by decide), if_neg (by decide)]

theorem claimFieldScore_none : claimFieldScore none = 0.3 := rfl

/-- C6 (counterexample).  Two fact sets with identical (absent) confidence annotations
but different additional-insured facts get different ConfidenceMetadata: the mock
compliance check's metadata flips `needs_human_review` with the finding severities, and
`calculate_extraction_confidence` changes its `review_reasons`. -/
theorem confidence_metadata_not_independent :
    coiScenarioB.confidence = coiScenarioB_noAI.confidence ∧
    (mock_compliance_check coiScenarioB req_commercial_construction
      none).extraction_metadata.needs_human_review = false ∧
    (mock_compliance_check coiScenarioB_noAI req_commercial_construction
      none).extraction_metadata.needs_human_review = true ∧
    coiFiveHighOneLow.confidence = coiFiveHighOneLow_noAI.confidence ∧
    (calculate_extraction_confidence coiFiveHighOneLow).review_reasons ≠
      (calculate_extraction_confidence coiFiveHighOneLow_noAI).review_reasons := by
  exact ⟨rfl, by decide, by decide, rfl, by decide⟩

/-- C6 (amended).  `calculate_extraction_confidence` computes `overall_confidence`,
`needs_human_review` and `low_confidence_fields` from the confidence annotations alone
(and one low critical field forces review even for passing facts), but its
`review_reasons` also read two fact values; and the mock check's metadata is
severity-dependent: its `needs_human_review` is exactly "some critical gap exists or the
additional-insured box is unchecked". -/
theorem confidence_metadata_dependence :
    (∀ c1 c2 : CoiData, c1.confidence = c2.confidence →
      (calculate_extraction_confidence c1).overall_confidence =
        (calculate_extraction_confidence c2).overall_confidence ∧
      (calculate_extraction_confidence c1).needs_human_review =
        (calculate_extraction_confidence c2).needs_human_review ∧
      (calculate_extraction_confidence c1).low_confidence_fields =
        (calculate_extraction_confidence c2).low_confidence_fields) ∧
    (∀ coi : CoiData, ∀ p ∈ criticalFieldList coi, claimFieldScore p.2 = 0.3 →
      (calculate_extraction_confidence coi).needs_human_review = true) ∧
    (∀ coi : CoiData, ∀ req : Requirements, ∀ st : Option String,
      (mock_compliance_check coi req st).extraction_metadata.needs_human_review =
        (decide ((mock_compliance_check coi req st).critical_gaps.length > 0) ||
          !coi.additional_insured_checked)) := by
  refine ⟨calc_conf_only, ?_, ?_⟩
  · intro coi p hp hsc
    exact (calc_needs_iff coi).mpr (Or.inr ⟨p, hp, hsc⟩)
  · intro coi req st
    rfl

/-- Witness for C6: the amended independence applied at Scenario B with and without the
additional-insured box, and the forced-review fact at the five-high/one-low input. -/
theorem confidence_metadata_dependence_witness :
    (calculate_extraction_confidence coiScenarioB).needs_human_review =
      (calculate_extraction_confidence coiScenarioB_noAI).needs_human_review ∧
    (calculate_extraction_confidence coiFiveHighOneLow).needs_human_review = true := by
  refine ⟨(confidence_metadata_dependence.1 coiScenarioB coiScenarioB_noAI rfl).2.1, ?_⟩
  exact confidence_metadata_dependence.2.1 coiFiveHighOneLow
    ("cg_20_37_endorsement", some ⟨some "low", none⟩) (by decide) (claimFieldScore_low none)

/-- C10.  `review_reasons` is the assembled reason list truncated to its first five
entries, hence never longer than five; excess reasons are silently dropped. -/
theorem review_reasons_capped (coi : CoiData) :
    (calculate_extraction_confidence coi).review_reasons = (reviewReasonsFull coi).take 5 ∧
    (calculate_extraction_confidence coi).review_reasons.length ≤ 5 := by
  refine ⟨rfl, ?_⟩
  show ((reviewReasonsFull coi).take 5).length ≤ 5
  rw [List.length_take]
  exact Nat.min_le_left _ _

/-- C3 (counterexample).  A `project_type` key absent from the table is not an error:
the route silently evaluates against the commercial-construction default. -/
theorem unknown_profile_defaults :
    PROJECT_TYPE_REQUIREMENTS.lookup "unknown_profile" = none ∧
    resolveRequirements (some "unknown_profile") none = req_commercial_construction := by
  exact ⟨by decide, by decide⟩

/-- C3 (amended).  Requirements resolution never fails: an unknown (or empty)
`project_type` silently falls back to the custom requirements when given, else to the
commercial-construction profile; a known, non-empty key selects its table entry. -/
theorem resolve_requirements_fallback :
    (∀ pt : String, ∀ custom : Option Requirements,
      PROJECT_TYPE_REQUIREMENTS.lookup pt = none →
      resolveRequirements (some pt) custom = custom.getD req_commercial_construction) ∧
    (∀ pt : String, ∀ r : Requirements, ∀ custom : Option Requirements,
      pt ≠ "" → PROJECT_TYPE_REQUIREMENTS.lookup pt = some r →
      resolveRequirements (some pt) custom = r) := by
  constructor
  · intro pt custom h
    rw [resolveRequirements.eq_def]
    rw [if_neg (by simp [h])]
    cases custom <;> rfl
  · intro pt r custom hne hl
    rw [resolveRequirements.eq_def]
    rw [if_pos (by simp [ptTruthy, hne, hl])]
    simp [hl]

/-- Witness for C3: the fallback at the unknown key and the lookup at a preset key. -/
theorem resolve_requirements_fallback_witness :
    resolveRequirements (some "unknown_profile") (some reqNoWC) = reqNoWC ∧
    resolveRequirements (some "government_municipal") none = req_government_municipal := by
  refine ⟨?_, ?_⟩
  · exact resolve_requirements_fallback.1 "unknown_profile" (some reqNoWC) (by decide)
  · exact resolve_requirements_fallback.2 "government_municipal" req_government_municipal
      none (by decide) (by decide)

/-- C4 (counterexample).  A report whose single critical finding is the workers-comp
gap gets the "Minimal risk exposure" sentinel, not a dollar sum: the estimate is not
the per-category sum over critical findings, and the sentinel is not reserved for
zero-critical reports. -/
theorem exposure_sentinel_with_critical :
    (mock_compliance_check coiWcOnly req_commercial_construction
      none).critical_gaps.length = 1 ∧
    ((mock_compliance_check coiWcOnly req_commercial_construction none).critical_gaps.map
      (fun f => f.name)) = ["Workers Compensation"] ∧
    (mock_compliance_check coiWcOnly req_commercial_construction none).risk_exposure =
      "Minimal risk exposure" := by
  exact ⟨by decide, by decide, by decide⟩

/-- Witness for C9: the fallback equivalence at the unknown code "ZZ". -/
theorem unknown_state_fallback_witness :
    mock_compliance_check coiScenarioB req_commercial_construction (some "ZZ") =
      mock_compliance_check coiScenarioB req_commercial_construction none :=
  unknown_state_fallback coiScenarioB req_commercial_construction "ZZ"
    (by decide) (by decide) (by decide)

theorem mem_of_getLast_opt {l : List Char} {a : Char} (h : l.getLast? = some a) : a ∈ l := by
  have hne : l ≠ [] := by
    rintro rfl
    simp at h
  have he := List.getLast?_eq_getLast l hne
  rw [he] at h
  injection h with h2
  rw [← h2]
  exact List.getLast_mem hne

theorem parse_eq_spec_no_suffix (s : String)
    (hM : (cleanLimitChars s).contains 'M' = false)
    (hK : (cleanLimitChars s).contains 'K' = false) :
    parse_limit_to_number s = parse_limit_spec s := by
  by_cases hs : s = ""
  · subst hs
    rfl
  · have hMn : 'M' ∉ cleanLimitChars s := by simpa using hM
    have hKn : 'K' ∉ cleanLimitChars s := by simpa using hK
    have hcode : parse_limit_to_number s =
        (match pyIntChars (cleanLimitChars s) with | some n => n | none => 0) := by
      unfold parse_limit_to_number
      rw [if_neg hs]
      simp only [hM, hK]
      rfl
    have hspec : parse_limit_spec s =
        (match pyIntChars (cleanLimitChars s) with | some n => n | none => 0) := by
      unfold parse_limit_spec
      rw [if_neg hs]
      rcases hL : (cleanLimitChars s).getLast? with _ | c
      · simp only [hL]
      · have hc : c ∈ cleanLimitChars s := mem_of_getLast_opt hL
        have hcM : c ≠ 'M' := fun e => hMn (e ▸ hc)
        have hcK : c ≠ 'K' := fun e => hKn (e ▸ hc)
        simp only [hL]
        split
        · next heq => exact absurd (by injection heq) hcM
        · next heq => exact absurd (by injection heq) hcK
        · rfl
    rw [hcode, hspec]

theorem parse_eq_spec_trailing_M (s : String)
    (h1 : (cleanLimitChars s).count 'M' = 1)
    (h2 : (cleanLimitChars s).getLast? = some 'M') :
    parse_limit_to_number s = parse_limit_spec s := by
  have hne : cleanLimitChars s ≠ [] := by
    intro h0
    rw [h0] at h2
    simp at h2
  have hsne : s ≠ "" := by
    intro e
    subst e
    exact hne rfl
  have hmem : 'M' ∈ cleanLimitChars s := mem_of_getLast_opt h2
  have hcontains : (cleanLimitChars s).contains 'M' = true := by simpa using hmem
  have hsplit : (cleanLimitChars s).dropLast ++ [(cleanLimitChars s).getLast hne] =
      cleanLimitChars s := List.dropLast_append_getLast hne
  have hlast : (cleanLimitChars s).getLast hne = 'M' := by
    have he := List.getLast?_eq_getLast (cleanLimitChars s) hne
    rw [he] at h2
    injection h2
  have hcount0 : (cleanLimitChars s).dropLast.count 'M' = 0 := by
    have hc := congrArg (List.count 'M') hsplit
    rw [List.count_append, hlast, h1] at hc
    simp at hc
    omega
  have hfilter : (cleanLimitChars s).filter (fun c => decide (c ≠ 'M')) =
      (cleanLimitChars s).dropLast := by
    conv_lhs => rw [← hsplit]
    rw [List.filter_append]
    have ha : (cleanLimitChars s).dropLast.filter (fun c => decide (c ≠ 'M')) =
        (cleanLimitChars s).dropLast := by
      apply List.filter_eq_self.mpr
      intro a hamem
      have haM : a ≠ 'M' := by
        intro e
        subst e
        rw [List.count_eq_zero] at hcount0
        exact hcount0 hamem
      simpa using haM
    have hb : [(cleanLimitChars s).getLast hne].filter (fun c => decide (c ≠ 'M')) = [] := by
      rw [hlast]
      simp
    rw [ha, hb, List.append_nil]
  unfold parse_limit_to_number parse_limit_spec
  rw [if_neg hsne, if_neg hsne]
  simp only [hcontains, h2, hfilter, if_true]

theorem parse_eq_spec_trailing_K (s : String)
    (hM : (cleanLimitChars s).contains 'M' = false)
    (h1 : (cleanLimitChars s).count 'K' = 1)
    (h2 : (cleanLimitChars s).getLast? = some 'K') :
    parse_limit_to_number s = parse_limit_spec s := by
  have hne : cleanLimitChars s ≠ [] := by
    intro h0
    rw [h0] at h2
    simp at h2
  have hsne : s ≠ "" := by
    intro e
    subst e
    exact hne rfl
  have hmem : 'K' ∈ cleanLimitChars s := mem_of_getLast_opt h2
  have hcontains : (cleanLimitChars s).contains 'K' = true := by simpa using hmem
  have hsplit : (cleanLimitChars s).dropLast ++ [(cleanLimitChars s).getLast hne] =
      cleanLimitChars s := List.dropLast_append_getLast hne
  have hlast : (cleanLimitChars s).getLast hne = 'K' := by
    have he := List.getLast?_eq_getLast (cleanLimitChars s) hne
    rw [he] at h2
    injection h2
  have hcount0 : (cleanLimitChars s).dropLast.count 'K' = 0 := by
    have hc := congrArg (List.count 'K') hsplit
    rw [List.count_append, hlast, h1] at hc
    simp at hc
    omega
  have hfilter : (cleanLimitChars s).filter (fun c => decide (c ≠ 'K')) =
      (cleanLimitChars s).dropLast := by
    conv_lhs => rw [← hsplit]
    rw [List.filter_append]
    have ha : (cleanLimitChars s).dropLast.filter (fun c => decide (c ≠ 'K')) =
        (cleanLimitChars s).dropLast := by
      apply List.filter_eq_self.mpr
      intro a hamem
      have haK : a ≠ 'K' := by
        intro e
        subst e
        rw [List.count_eq_zero] at hcount0
        exact hcount0 hamem
      simpa using haK
    have hb : [(cleanLimitChars s).getLast hne].filter (fun c => decide (c ≠ 'K')) = [] := by
      rw [hlast]
      simp
    rw [ha, hb, List.append_nil]
  unfold parse_limit_to_number parse_limit_spec
  rw [if_neg hsne, if_neg hsne]
  simp only [hM, hcontains, h2, hfilter, if_true, Bool.false_eq_true, if_false]

/-- C8 (counterexample).  The suffix letters are detected ANYWHERE in the cleaned
string, not only as a trailing suffix: on `"M1"` the claim's description yields 0
(no trailing suffix, not an integer) while the code returns 1,000,000. -/
theorem parse_limit_nontrailing_suffix :
    parse_limit_to_number "M1" = 1000000 ∧ parse_limit_spec "M1" = 0 := by
  exact ⟨by decide, by decide⟩

/-- C8 (amended).  The four round-trip values hold, and the parser behaves exactly as
the claim describes whenever `M`/`K` appear only as a genuine trailing suffix: it agrees
with the claim-side `parse_limit_spec` on every string whose cleaned form has no `M`/`K`
at all, and on every string whose cleaned form ends in a single `M` (or, with no `M`, a
single `K`).  The deviation is only that an `M`/`K` elsewhere also triggers the
multiplier, with every occurrence removed (see the counterexample).  Both parsers are
total Lean functions, mirroring the bare `except` clauses that coerce every parse
failure to 0. -/
theorem parse_limit_amended :
    parse_limit_to_number "$1,000,000" = 1000000 ∧
    parse_limit_to_number "$2M" = 2000000 ∧
    parse_limit_to_number "" = 0 ∧
    parse_limit_to_number "garbage" = 0 ∧
    (∀ s : String, (cleanLimitChars s).contains 'M' = false →
      (cleanLimitChars s).contains 'K' = false →
      parse_limit_to_number s = parse_limit_spec s) ∧
    (∀ s : String, (cleanLimitChars s).count 'M' = 1 →
      (cleanLimitChars s).getLast? = some 'M' →
      parse_limit_to_number s = parse_limit_spec s) ∧
    (∀ s : String, (cleanLimitChars s).contains 'M' = false →
      (cleanLimitChars s).count 'K' = 1 →
      (cleanLimitChars s).getLast? = some 'K' →
      parse_limit_to_number s = parse_limit_spec s) :=
  ⟨by decide, by decide, by decide, by decide,
    parse_eq_spec_no_suffix, parse_eq_spec_trailing_M, parse_eq_spec_trailing_K⟩

/-- Witness for C8: the agreement clauses applied at plain, `M`-suffixed and
`K`-suffixed concrete inputs. -/
theorem parse_limit_amended_witness :
    parse_limit_to_number "$1,500,000" = parse_limit_spec "$1,500,000" ∧
    parse_limit_to_number "$2.5M" = parse_limit_spec "$2.5M" ∧
    parse_limit_to_number "500k" = parse_limit_spec "500k" := by
  refine ⟨?_, ?_, ?_⟩
  · exact parse_limit_amended.2.2.2.2.1 "$1,500,000" (by decide) (by decide)
  · exact parse_limit_amended.2.2.2.2.2.1 "$2.5M" (by decide) (by decide)
  · exact parse_limit_amended.2.2.2.2.2.2 "500k" (by decide) (by decide) (by decide)

end InsuranceLLM
